import Mathlib

set_option maxRecDepth 4000

/-!
Verification of the DentalResearchBot feed-ingestion / deduplication /
per-user delivery pipeline, as a shallow embedding of the Python source
(src/services/feed_parser.py, src/services/scheduler.py,
src/database/repository.py, src/database/models.py, src/main.py,
src/bot/handlers/articles.py, src/utils/formatting.py).

Machine integers do not occur in the source; Python integers are `Nat`.
Timestamps (`datetime.utcnow`, `func.now()` server defaults) are modelled by
a logical clock on the database state that advances at every committing
operation, which preserves exactly the property the code relies on:
monotonicity.  Fallible operations return `Except` / `Option`.
-/

/-! ## MD5 (hashlib.md5(...).hexdigest() used by Repository.hash_link) -/

namespace MD5

/-- 2^32, the modulus for 32-bit arithmetic. -/
def M32 : Nat := 4294967296

def add32 (a b : Nat) : Nat := (a + b) % M32

def not32 (x : Nat) : Nat := (M32 - 1) - x

def rotl32 (x s : Nat) : Nat := ((x <<< s) ||| (x >>> (32 - s))) % M32

def fF (b c d : Nat) : Nat := (b &&& c) ||| (not32 b &&& d)
def fG (b c d : Nat) : Nat := (b &&& d) ||| (c &&& not32 d)
def fH (b c d : Nat) : Nat := b ^^^ c ^^^ d
def fI (b c d : Nat) : Nat := c ^^^ (b ||| not32 d)

/-- Per-round left-rotation amounts. -/
def shifts : List Nat :=
  [7,12,17,22,7,12,17,22,7,12,17,22,7,12,17,22,
   5,9,14,20,5,9,14,20,5,9,14,20,5,9,14,20,
   4,11,16,23,4,11,16,23,4,11,16,23,4,11,16,23,
   6,10,15,21,6,10,15,21,6,10,15,21,6,10,15,21]

/-- The 64 sine-derived round constants. -/
def kconst : List Nat :=
  [3614090360, 3905402710, 606105819, 3250441966, 4118548399, 1200080426,
   2821735955, 4249261313, 1770035416, 2336552879, 4294925233, 2304563134,
   1804603682, 4254626195, 2792965006, 1236535329, 4129170786, 3225465664,
   643717713, 3921069994, 3593408605, 38016083, 3634488961, 3889429448,
   568446438, 3275163606, 4107603335, 1163531501, 2850285829, 4243563512,
   1735328473, 2368359562, 4294588738, 2272392833, 1839030562, 4259657740,
   2763975236, 1272893353, 4139469664, 3200236656, 681279174, 3936430074,
   3572445317, 76029189, 3654602809, 3873151461, 530742520, 3299628645,
   4096336452, 1126891415, 2878612391, 4237533241, 1700485571, 2399980690,
   4293915773, 2240044497, 1873313359, 4264355552, 2734768916, 1309151649,
   4149444226, 3174756917, 718787259, 3951481745]

/-- One round step over the state (a, b, c, d) given the 16 message words. -/
def step (m : List Nat) (i : Nat) (st : Nat × Nat × Nat × Nat) : Nat × Nat × Nat × Nat :=
  let (a, b, c, d) := st
  let (f, g) :=
    if i < 16 then (fF b c d, i)
    else if i < 32 then (fG b c d, (5 * i + 1) % 16)
    else if i < 48 then (fH b c d, (3 * i + 5) % 16)
    else (fI b c d, (7 * i) % 16)
  let f := add32 (add32 (add32 f a) (kconst.getD i 0)) (m.getD g 0)
  (d, add32 b (rotl32 f (shifts.getD i 0)), b, c)

/-- Process one 16-word block, updating the running digest state. -/
def processBlock (st : Nat × Nat × Nat × Nat) (m : List Nat) : Nat × Nat × Nat × Nat :=
  let (a0, b0, c0, d0) := st
  let (a, b, c, d) := (List.range 64).foldl (fun s i => step m i s) (a0, b0, c0, d0)
  (add32 a0 a, add32 b0 b, add32 c0 c, add32 d0 d)

/-- Split a list of bytes into 16 little-endian 32-bit words (one 64-byte block). -/
def bytesToWords : List Nat → List Nat
  | b0 :: b1 :: b2 :: b3 :: rest =>
      (b0 + b1 * 256 + b2 * 65536 + b3 * 16777216) :: bytesToWords rest
  | _ => []

/-- Split padded bytes into 64-byte blocks (structural in a fuel argument so
that the kernel can reduce it). -/
def toBlocksAux : Nat → List Nat → List (List Nat)
  | 0, _ => []
  | _, [] => []
  | fuel + 1, bs => bytesToWords (bs.take 64) :: toBlocksAux fuel (bs.drop 64)

def toBlocks (bs : List Nat) : List (List Nat) := toBlocksAux bs.length bs

/-- Little-endian byte encoding of `n` in `k` bytes. -/
def leBytes : Nat → Nat → List Nat
  | 0, _ => []
  | k + 1, n => (n % 256) :: leBytes k (n / 256)

/-- MD5 padding: 0x80, zeros to 56 mod 64, then the 64-bit little-endian bit length. -/
def pad (msg : List Nat) : List Nat :=
  let len := msg.length
  let zeros := (119 - len % 64) % 64
  msg ++ [128] ++ List.replicate zeros 0 ++ leBytes 8 ((len * 8) % (2 ^ 64))

def hexDigit (n : Nat) : Char :=
  if n < 10 then Char.ofNat (48 + n) else Char.ofNat (87 + n)

/-- Lowercase hex rendering of one byte. -/
def byteHex (b : Nat) : List Char := [hexDigit (b / 16), hexDigit (b % 16)]

/-- Render a 32-bit word as 8 hex chars, least-significant byte first. -/
def wordHex (w : Nat) : List Char :=
  (leBytes 4 w).flatMap byteHex

/-- MD5 digest of a byte list, as a lowercase hex string. -/
def md5Bytes (msg : List Nat) : String :=
  let st := (pad msg |> toBlocks).foldl processBlock
    (1732584193, 4023233417, 2562383102, 271733878)
  let (a, b, c, d) := st
  String.mk (wordHex a ++ wordHex b ++ wordHex c ++ wordHex d)

/-- UTF-8 encoding of one character. -/
def utf8Bytes (c : Char) : List Nat :=
  let n := c.toNat
  if n < 128 then [n]
  else if n < 2048 then [192 ||| (n >>> 6), 128 ||| (n &&& 63)]
  else if n < 65536 then
    [224 ||| (n >>> 12), 128 ||| ((n >>> 6) &&& 63), 128 ||| (n &&& 63)]
  else
    [240 ||| (n >>> 18), 128 ||| ((n >>> 12) &&& 63),
     128 ||| ((n >>> 6) &&& 63), 128 ||| (n &&& 63)]

/-- UTF-8 bytes of a string, as Python str.encode(). -/
def strBytes (s : String) : List Nat := (s.data.map utf8Bytes).flatten

/-- Model of hashlib.md5(s.encode()).hexdigest(). -/
def md5Hex (s : String) : String := md5Bytes (strBytes s)

end MD5

/-! ## FeedParser (src/services/feed_parser.py)

A feedparser entry is modelled as a record of the fields the source reads.
Field access styles are preserved: fields read with entry.get(k, default)
carry the default directly; fields guarded by membership or hasattr tests
are `Option`.  The external feedparser library itself is out of scope: a
raw feed text is modelled by its parse result (entries plus bozo flag);
a transport failure (fetch_feed returning None) or empty body is `none`.
-/

namespace FeedParser

/-- A Python value that is either a str or something else, for isinstance tests. -/
inductive PyVal where
  | str (s : String)
  | other
  deriving DecidableEq

/-- Model of a feedparser entry. -/
structure Entry where
  /-- entry.get('title', ''). -/
  title : String := ""
  /-- entry.get('link', ''). -/
  link : String := ""
  /-- entry.get('links', []): each item's href (`none` for a non-dict item
  or a dict without an href key; an empty href is `some ""`). -/
  links : List (Option String) := []
  /-- 'summary' in entry, then entry.summary. -/
  summary : Option String := none
  /-- 'description' in entry, then entry.description. -/
  description : Option String := none
  /-- 'content' in entry and entry.content, then entry.content[0]: each item
  is the string it yields (dict items yield content.get('value', ''),
  other items yield str(content)); [] covers both an absent key and an
  empty list, which the source treats alike. -/
  content : List String := []
  /-- 'authors' in entry: each item is the string it yields (dict items
  yield author.get('name', ''), other items yield str(author)). -/
  authors : Option (List String) := none
  /-- 'author' in entry, then entry.author (may fail the isinstance str test). -/
  author : Option PyVal := none
  /-- 'dc_creator' in entry: a single value or a list. -/
  dc_creator : Option (String ⊕ List String) := none
  /-- hasattr(entry, 'prism_doi'), then entry.prism_doi. -/
  prism_doi : Option String := none
  /-- 'dc_identifier' in entry, then entry.dc_identifier. -/
  dc_identifier : Option String := none
  /-- published_parsed / updated_parsed / created_parsed as timestamps;
  `none` is an absent or falsy field or a failing time.mktime conversion. -/
  published_parsed : Option Nat := none
  updated_parsed : Option Nat := none
  created_parsed : Option Nat := none
  /-- published / updated / dc_date / prism_publicationdate string dates,
  modelled by the result of the external dateutil parse (`none` is an
  absent field or an unparsable date). -/
  published : Option Nat := none
  updated : Option Nat := none
  dc_date : Option Nat := none
  prism_publicationdate : Option Nat := none
  /-- entry.get('prism_volume'). -/
  prism_volume : Option String := none
  /-- entry.get('prism_number'). -/
  prism_number : Option String := none
  /-- entry.get('prism_issue'). -/
  prism_issue : Option String := none
  deriving DecidableEq

/-- The dataclass ParsedArticle of feed_parser.py. -/
structure ParsedArticle where
  title : String
  link : String
  abstract : Option String
  authors : Option String
  doi : Option String
  published_date : Option Nat
  volume : Option String := none
  issue : Option String := none
  deriving DecidableEq

/-- Python truthiness of an Optional[str]: None and '' are falsy. -/
def pyTruthy : Option String → Bool
  | none => false
  | some s => s ≠ ""

/-- Python `a or b` on Optional[str] values. -/
def pyOr (a b : Option String) : Option String :=
  if pyTruthy a then a else b

/-- Whitespace for the regex class \s on the ASCII range. -/
def isPySpace (c : Char) : Bool :=
  c = ' ' || c = '\t' || c = '\n' || c = '\x0d' || c = '\x0b' || c = '\x0c'

/-- Model of re.sub(r'<[^>]+>', '', text): drop every span from a '<'
through the first following '>' provided at least one character stands
between them; structural in a fuel argument for kernel reduction. -/
def removeTagsAux : Nat → List Char → List Char
  | 0, cs => cs
  | fuel + 1, [] => (by exact ([] : List Char))
  | fuel + 1, '<' :: rest =>
      match rest.findIdx? (· = '>') with
      | some i =>
          if i = 0 then '<' :: removeTagsAux fuel rest
          else removeTagsAux fuel (rest.drop (i + 1))
      | none => '<' :: removeTagsAux fuel rest
  | fuel + 1, c :: rest => c :: removeTagsAux fuel rest

def removeTags (cs : List Char) : List Char := removeTagsAux cs.length cs

/-- The named entities of the model of html.unescape (the source uses the
stdlib table, which is far larger; theorems below never depend on entities
beyond these). -/
def namedEntity (s : String) : Option String :=
  if s = "amp" then some "&"
  else if s = "lt" then some "<"
  else if s = "gt" then some ">"
  else if s = "quot" then some "\""
  else if s = "nbsp" then some " "
  else none

/-- Hexadecimal digit test. -/
def isHexDig (c : Char) : Bool :=
  c.isDigit || ('a' ≤ c && c ≤ 'f') || ('A' ≤ c && c ≤ 'F')

/-- Digits of a decimal or hexadecimal character reference. -/
def refValue (s : String) : Option Nat :=
  if s.startsWith "x" || s.startsWith "X" then
    let d := s.drop 1
    if d ≠ "" && d.data.all isHexDig then
      some (d.data.foldl (fun n c =>
        16 * n + (if c.isDigit then c.toNat - 48
                  else if c ≤ 'F' then c.toNat - 55 else c.toNat - 87)) 0)
    else none
  else if s ≠ "" && s.data.all (·.isDigit) then
    some (s.data.foldl (fun n c => 10 * n + (c.toNat - 48)) 0)
  else none

/-- Resolve one semicolon-terminated entity body. -/
def entityBody (s : String) : Option String :=
  if s.startsWith "#" then
    match refValue (s.drop 1) with
    | some n => if n.isValidChar then some (String.mk [Char.ofNat n]) else none
    | none => none
  else namedEntity s

/-- Model of html.unescape restricted to semicolon-terminated references:
at an ampersand, the characters up to the next semicolon are resolved as a
named or numeric reference when they form one, else kept verbatim. -/
def unescapeAux : Nat → List Char → List Char
  | 0, cs => cs
  | fuel + 1, [] => (by exact ([] : List Char))
  | fuel + 1, '&' :: rest =>
      match rest.findIdx? (· = ';') with
      | some i =>
          match entityBody (String.mk (rest.take i)) with
          | some r => r.data ++ unescapeAux fuel (rest.drop (i + 1))
          | none => '&' :: unescapeAux fuel rest
      | none => '&' :: unescapeAux fuel rest
  | fuel + 1, c :: rest => c :: unescapeAux fuel rest

def unescape (cs : List Char) : List Char := unescapeAux cs.length cs

/-- Maximal runs of non-whitespace characters. -/
def tokenizeAux (cur : List Char) : List Char → List (List Char)
  | [] => if cur.isEmpty then [] else [cur.reverse]
  | c :: cs =>
      if isPySpace c then
        if cur.isEmpty then tokenizeAux [] cs
        else cur.reverse :: tokenizeAux [] cs
      else tokenizeAux (c :: cur) cs

/-- Model of re.sub(r'\s+', ' ', s).strip(): whitespace runs collapse to a
single space and the ends are trimmed, which equals joining the maximal
non-whitespace runs with single spaces. -/
def collapseWs (cs : List Char) : List Char :=
  List.intercalate [' '] (tokenizeAux [] cs)

/-- FeedParser._clean_html: strip tags, unescape entities, normalize whitespace. -/
def clean_html (text : String) : String :=
  if text = "" then ""
  else String.mk (collapseWs (unescape (removeTags text.data)))

/-- FeedParser._extract_abstract: summary, else description, else the first
content block; a truthy result is cleaned and discarded when shorter than
50 characters. -/
def extract_abstract (e : Entry) : Option String :=
  let abstract : Option String :=
    if e.summary.isSome then e.summary
    else if e.description.isSome then e.description
    else match e.content with
      | [] => none
      | c :: _ => some c
  match abstract with
  | none => none
  | some a =>
      if a = "" then some a
      else
        let cleaned := clean_html a
        if cleaned.length < 50 then none else some cleaned

/-- FeedParser._extract_authors: names are accumulated from the structured
authors list (skipping falsy names), then the singular author field (when
it is a str), then dc_creator (a list extends, a single value appends),
and the accumulated names are comma-joined (None when none were found). -/
def extract_authors (e : Entry) : Option String :=
  let fromAuthors : List String :=
    match e.authors with
    | none => []
    | some items => items.filter (· ≠ "")
  let fromAuthor : List String :=
    match e.author with
    | some (.str s) => [s]
    | _ => []
  let fromCreator : List String :=
    match e.dc_creator with
    | none => []
    | some (.inl s) => [s]
    | some (.inr l) => l
  let authors := fromAuthors ++ fromAuthor ++ fromCreator
  if authors.isEmpty then none else some (String.intercalate ", " authors)

/-- Index just after a match of the regex r'(10\.\d{4,}/[^\s]+)' starting at
the head of cs: "10." then at least four digits, then '/', then at least
one non-whitespace character, taken greedily. -/
def doiMatchAt (cs : List Char) : Option (List Char) :=
  match cs with
  | '1' :: '0' :: '.' :: rest =>
      let digits := rest.takeWhile (·.isDigit)
      if digits.length < 4 then none
      else
        match rest.drop digits.length with
        | '/' :: tail =>
            let body := tail.takeWhile (fun c => !isPySpace c)
            if body.isEmpty then none
            else some ('1' :: '0' :: '.' :: digits ++ '/' :: body)
        | _ => none
  | _ => none

/-- Leftmost match of the DOI regex in a character list. -/
def doiSearch : List Char → Option (List Char)
  | [] => none
  | c :: rest =>
      match doiMatchAt (c :: rest) with
      | some m => some m
      | none => doiSearch rest

/-- Python `"sub" in s` substring test. -/
def containsSubstr (s sub : String) : Bool :=
  List.range (s.length + 1) |>.any (fun i => (s.drop i).startsWith sub)

/-- FeedParser._extract_doi: prism_doi, else dc_identifier when it looks
like a DOI, else a DOI-shaped token extracted from the link. -/
def extract_doi (e : Entry) : Option String :=
  match e.prism_doi with
  | some d => some d
  | none =>
      let fromLink : Option String := (doiSearch e.link.data).map String.mk
      match e.dc_identifier with
      | some ident =>
          if containsSubstr ident "doi.org" || ident.startsWith "10." then some ident
          else fromLink
      | none => fromLink

/-- FeedParser._parse_date: structured parsed-time fields in order, then
string date fields in order (their external parses are carried by the
entry model), else None. -/
def parse_date (e : Entry) : Option Nat :=
  match e.published_parsed with
  | some t => some t
  | none =>
  match e.updated_parsed with
  | some t => some t
  | none =>
  match e.created_parsed with
  | some t => some t
  | none =>
  match e.published with
  | some t => some t
  | none =>
  match e.updated with
  | some t => some t
  | none =>
  match e.dc_date with
  | some t => some t
  | none => e.prism_publicationdate

/-- FeedParser._extract_volume_issue: prism_volume, and prism_number or
prism_issue under Python `or`. -/
def extract_volume_issue (e : Entry) : Option String × Option String :=
  (e.prism_volume, pyOr e.prism_number e.prism_issue)

/-- First truthy href among the alternate links. -/
def firstHref : List (Option String) → String
  | [] => ""
  | some h :: rest => if h ≠ "" then h else firstHref rest
  | none :: rest => firstHref rest

/-- One iteration of the entry loop of _parse_feed_content: candidates
without a title (after cleaning) or without a link are dropped. -/
def entryToParsed (e : Entry) : Option ParsedArticle :=
  let title := clean_html e.title
  if title = "" then none
  else
    let link := if e.link ≠ "" then e.link else firstHref e.links
    if link = "" then none
    else
      some { title := title
             link := link
             abstract := extract_abstract e
             authors := extract_authors e
             doi := extract_doi e
             published_date := parse_date e
             volume := (extract_volume_issue e).1
             issue := (extract_volume_issue e).2 }

/-- The parse result of a raw feed text: its entries and the bozo flag. -/
structure Feed where
  entries : List Entry
  bozo : Bool := false
  deriving DecidableEq

/-- FeedParser._parse_feed_content on a parsed feed: a bozo feed without
entries yields no candidates, otherwise the per-entry loop runs (a failing
candidate is dropped, its siblings are unaffected). -/
def parse_feed_content (f : Feed) : List ParsedArticle :=
  if f.bozo && f.entries.isEmpty then []
  else f.entries.filterMap entryToParsed

/-- FeedParser.parse_from_url: a transport failure or empty body (fetch_feed
returning None, or falsy content) yields no candidates. -/
def parse_from_url (fetched : Option Feed) : List ParsedArticle :=
  match fetched with
  | none => []
  | some f => parse_feed_content f

end FeedParser

/-! ## Data model (src/database/models.py) and Repository (src/database/repository.py)

The persistent store is a record of tables.  Column server defaults taken
from func.now() are modelled by a logical clock that every committing
operation advances; autoincrement primary keys are modelled by explicit
next-id counters.  Only the fields the verified pipeline touches are
carried.
-/

namespace Models

/-- users table. -/
structure User where
  id : Nat
  telegram_id : Nat
  language : String := "en"
  onboarding_complete : Bool := false
  deriving DecidableEq

/-- journals table. -/
structure Journal where
  id : Nat
  name : String
  feed_url : String := ""
  needs_scraping : Bool := false
  is_active : Bool := true
  last_checked : Option Nat := none
  deriving DecidableEq

/-- user_journals table. -/
structure UserJournal where
  user_id : Nat
  journal_id : Nat
  is_active : Bool := true
  deriving DecidableEq

/-- articles table. -/
structure Article where
  id : Nat
  journal_id : Nat
  title : String
  link : String
  link_hash : String
  abstract : Option String := none
  authors : Option String := none
  doi : Option String := none
  volume : Option String := none
  issue : Option String := none
  published_date : Option Nat := none
  fetched_at : Nat := 0
  deriving DecidableEq

/-- sent_articles table. -/
structure SentArticle where
  user_id : Nat
  article_id : Nat
  tailored_content : Option String := none
  sent_at : Nat := 0
  deriving DecidableEq

/-- The whole store. -/
structure DB where
  users : List User
  journals : List Journal
  subs : List UserJournal
  articles : List Article
  sent : List SentArticle
  nextArticleId : Nat
  clock : Nat
  deriving DecidableEq

end Models

namespace Repository

open Models FeedParser

/-- The Python exceptions the embedded operations can raise. -/
inductive PyError where
  | typeError
  | valueError
  deriving DecidableEq

/-- scalar_one_or_none over users filtered by telegram_id. -/
def findUserByTid (db : DB) (telegram_id : Nat) : Option User :=
  db.users.find? (fun u => u.telegram_id == telegram_id)

/-- Repository.hash_link: hashlib.md5(link.encode()).hexdigest(). -/
def hash_link (link : String) : String := MD5.md5Hex link

/-- Repository.article_exists: any stored article with the same link hash. -/
def article_exists (db : DB) (link : String) : Bool :=
  db.articles.any (fun a => a.link_hash == hash_link link)

/-- Repository.create_article: a no-op returning None when the link hash is
already present, else insert (fetched_at takes the server default). -/
def create_article (db : DB) (journal_id : Nat) (title link : String)
    (abstract : Option String := none) (authors : Option String := none)
    (doi : Option String := none) (published_date : Option Nat := none) :
    Option Article × DB :=
  let lh := hash_link link
  if db.articles.any (fun a => a.link_hash == lh) then (none, db)
  else
    let a : Article :=
      { id := db.nextArticleId, journal_id := journal_id, title := title
        link := link, link_hash := lh, abstract := abstract, authors := authors
        doi := doi, published_date := published_date, fetched_at := db.clock }
    (some a,
     { db with articles := db.articles ++ [a]
               nextArticleId := db.nextArticleId + 1
               clock := db.clock + 1 })

/-- Repository.was_article_sent_to_user: False for an unknown user, else an
existence test on the delivery records of the resolved internal user id. -/
def was_article_sent_to_user (db : DB) (user_id article_id : Nat) : Bool :=
  match findUserByTid db user_id with
  | none => false
  | some u => db.sent.any (fun s => s.user_id == u.id && s.article_id == article_id)

/-- Repository.mark_article_sent: ValueError for an unknown user, else a new
delivery record (sent_at takes the server default). -/
def mark_article_sent (db : DB) (telegram_id article_id : Nat)
    (tailored_content : Option String := none) : Except PyError DB :=
  match findUserByTid db telegram_id with
  | none => .error .valueError
  | some u =>
      .ok { db with
              sent := db.sent ++
                [{ user_id := u.id, article_id := article_id
                   tailored_content := tailored_content, sent_at := db.clock }]
              clock := db.clock + 1 }

/-- Repository.update_journal_last_checked: stamp the journal row with now. -/
def update_journal_last_checked (db : DB) (journal_id : Nat) : DB :=
  { db with
      journals := db.journals.map (fun j =>
        if j.id == journal_id then { j with last_checked := some db.clock } else j)
      clock := db.clock + 1 }

/-- Repository.get_users_subscribed_to_journal: users joined through an
active subscription to the journal, restricted to completed onboarding. -/
def get_users_subscribed_to_journal (db : DB) (journal_id : Nat) : List User :=
  db.users.filter (fun u =>
    db.subs.any (fun s =>
      s.user_id == u.id && s.journal_id == journal_id && s.is_active) &&
    u.onboarding_complete)

/-- Lexicographic code-point comparison of character lists. -/
def charListLe : List Char → List Char → Bool
  | [], _ => true
  | _ :: _, [] => false
  | a :: as, b :: bs =>
      if a.toNat < b.toNat then true
      else if b.toNat < a.toNat then false
      else charListLe as bs

/-- Lexicographic string order used for the order_by(name) clauses. -/
def strLe (a b : String) : Bool := charListLe a.data b.data

/-- Insertion into a list sorted ascending by name. -/
def insertByName (j : Journal) : List Journal → List Journal
  | [] => [j]
  | x :: xs => if strLe j.name x.name then j :: x :: xs else x :: insertByName j xs

/-- Sort journals ascending by name (order_by(Journal.name)). -/
def sortByName : List Journal → List Journal
  | [] => []
  | x :: xs => insertByName x (sortByName xs)

/-- Repository.get_all_journals: active journals ordered by name. -/
def get_all_journals (db : DB) : List Journal :=
  sortByName (db.journals.filter (fun j => j.is_active))

/-- Repository.get_user_subscriptions: journals joined through an active
subscription of the user, ordered by name. -/
def get_user_subscriptions (db : DB) (telegram_id : Nat) : List Journal :=
  sortByName (db.journals.filter (fun j =>
    db.subs.any (fun s =>
      s.journal_id == j.id && s.is_active &&
      db.users.any (fun u => u.id == s.user_id && u.telegram_id == telegram_id))))

/-- Insertion into a list sorted descending by fetched_at. -/
def insertByFetchedDesc (a : Article) : List Article → List Article
  | [] => [a]
  | x :: xs =>
      if x.fetched_at ≤ a.fetched_at then a :: x :: xs
      else x :: insertByFetchedDesc a xs

/-- Sort articles descending by fetched_at (order_by(fetched_at.desc())). -/
def sortByFetchedDesc : List Article → List Article
  | [] => []
  | x :: xs => insertByFetchedDesc x (sortByFetchedDesc xs)

/-- Repository.get_unsent_articles_for_user: articles of the journals the
user actively subscribes to, minus the articles among the user's delivery
records, newest fetched first, capped at 20. -/
def get_unsent_articles_for_user (db : DB) (telegram_id : Nat) : List Article :=
  match findUserByTid db telegram_id with
  | none => []
  | some u =>
      let journal_ids :=
        (db.subs.filter (fun s => s.user_id == u.id && s.is_active)).map
          (fun s => s.journal_id)
      if journal_ids.isEmpty then []
      else
        let sent_ids :=
          (db.sent.filter (fun s => s.user_id == u.id)).map (fun s => s.article_id)
        let q := db.articles.filter (fun a =>
          journal_ids.any (fun i => i == a.journal_id))
        let q := if sent_ids.isEmpty then q
                 else q.filter (fun a => !sent_ids.any (fun i => i == a.id))
        (sortByFetchedDesc q).take 20

end Repository

/-! ## markdown_to_telegram (src/utils/formatting.py) -/

namespace Formatting

open FeedParser (isPySpace)

/-- Python str.strip(). -/
def pyStrip (s : String) : String :=
  String.mk (((s.data.dropWhile isPySpace).reverse.dropWhile isPySpace).reverse)

/-- Python s.replace(old, new, 1) for the two-character pattern "- ". -/
def replaceFirstDash : List Char → List Char
  | [] => []
  | ['-'] => ['-']
  | '-' :: ' ' :: rest => '•' :: ' ' :: rest
  | c :: rest => c :: replaceFirstDash rest

/-- Position of the first "**" in a character list. -/
def findDoubleStar : List Char → Option Nat
  | [] => none
  | [_] => none
  | '*' :: '*' :: _ => some 0
  | _ :: rest => (findDoubleStar rest).map (· + 1)

/-- Model of re.sub over one line: each non-greedy bold span becomes a
single-star span; an opening without a closing is left verbatim. -/
def boldSubAux : Nat → List Char → List Char
  | 0, cs => cs
  | _ + 1, [] => []
  | fuel + 1, '*' :: '*' :: rest =>
      (match findDoubleStar rest with
       | some i => '*' :: rest.take i ++ '*' :: boldSubAux fuel (rest.drop (i + 2))
       | none => '*' :: boldSubAux fuel ('*' :: rest))
  | fuel + 1, c :: rest => c :: boldSubAux fuel rest

def boldSub (cs : List Char) : List Char := boldSubAux (cs.length + 1) cs

/-- Per-line conversion of markdown_to_telegram. -/
def convertLine (line : String) : String :=
  let line :=
    if line.startsWith "# " then "📌 *" ++ pyStrip (line.drop 2) ++ "*"
    else if line.startsWith "## " then "🔹 *" ++ pyStrip (line.drop 3) ++ "*"
    else if line.startsWith "### " then "🔸 *" ++ pyStrip (line.drop 4) ++ "*"
    else if (pyStrip line).startsWith "- " then String.mk (replaceFirstDash line.data)
    else line
  String.mk (boldSub line.data)

/-- markdown_to_telegram: convert every newline-separated line and re-join. -/
def markdown_to_telegram (text : String) : String :=
  String.intercalate "\n" ((text.splitOn "\n").map convertLine)

end Formatting

/-! ## NotificationDispatcher (src/services/scheduler.py, src/main.py,
src/bot/handlers/articles.py)

External collaborators are a per-invocation environment: the feed source
(fetch outcome per journal), the abstract scraper (never raises; None is a
valid outcome), the tailoring service (None covers both an empty result and
a caught tailoring failure, which the per-user loop treats alike), and the
messaging channel (whether each of the two send attempts raises).
-/

namespace Scheduler

open Models Repository FeedParser

structure Env where
  /-- Outcome of fetch_feed for a journal (none is a caught transport error
  or an empty body). -/
  fetch : Journal → Option Feed
  /-- AbstractScraper.scrape_abstract (never raises). -/
  scrape : String → Option String
  /-- GrokTailoringService.tailor_article outcome for (user, article,
  journal name). -/
  tailor : User → Article → String → Option String
  /-- Whether the Markdown-formatted send attempt raises for (chat, text). -/
  sendMarkdownFails : Nat → String → Bool
  /-- Whether the plain-text retry raises for (chat, text). -/
  sendPlainFails : Nat → String → Bool

/-- How a message dispatch ended. -/
inductive SendOutcome where
  | sentMarkdown
  | sentPlain
  | failedBoth
  deriving DecidableEq

/-- main.py send_message_callback: try parse_mode Markdown; on an exception
retry with parse_mode None; a second exception is only logged.  The
callback returns normally in every case — it never re-raises, so its
caller cannot observe a failed dispatch. -/
def send_message_callback (env : Env) (telegram_id : Nat) (text : String) : SendOutcome :=
  if env.sendMarkdownFails telegram_id text then
    if env.sendPlainFails telegram_id text then .failedBoth else .sentPlain
  else .sentMarkdown

/-- ArticlesHandler._send_tailored_message: the same try / retry-plain /
log-and-swallow structure over reply_text. -/
def reply_tailored (env : Env) (telegram_id : Nat) (text : String) : SendOutcome :=
  if env.sendMarkdownFails telegram_id text then
    if env.sendPlainFails telegram_id text then .failedBoth else .sentPlain
  else .sentMarkdown

/-- Observable pipeline events: a dispatch (send invoked for a user and an
article) and a delivery-record creation. -/
inductive Event where
  | dispatched (telegram_id article_id : Nat) (outcome : SendOutcome)
  | marked (telegram_id article_id : Nat)
  deriving DecidableEq

/-- The body of the per-subscriber try block of
FeedScheduler.notify_subscribers: skip when already sent; tailor (a None or
failed tailoring skips the user); convert, send through the callback (which
never raises), then mark as sent (a ValueError from an unknown user is
caught by the per-user except and only logged). -/
def notifyUser (env : Env) (article : Article) (journal : Journal)
    (db : DB) (u : User) : DB × List Event :=
  if was_article_sent_to_user db u.telegram_id article.id then (db, [])
  else
    match env.tailor u article journal.name with
    | none => (db, [])
    | some tailored =>
        let telegram_text := Formatting.markdown_to_telegram tailored
        let outcome := send_message_callback env u.telegram_id telegram_text
        match mark_article_sent db u.telegram_id article.id (some tailored) with
        | .ok db2 =>
            (db2, [.dispatched u.telegram_id article.id outcome,
                   .marked u.telegram_id article.id])
        | .error _ =>
            (db, [.dispatched u.telegram_id article.id outcome])

/-- The subscriber loop. -/
def notifyLoop (env : Env) (article : Article) (journal : Journal) :
    List User → DB → DB × List Event
  | [], db => (db, [])
  | u :: rest, db =>
      let (db2, evs) := notifyUser env article journal db u
      let (db3, evs2) := notifyLoop env article journal rest db2
      (db3, evs ++ evs2)

/-- FeedScheduler.notify_subscribers. -/
def notify_subscribers (env : Env) (article : Article) (journal : Journal)
    (db : DB) : DB × List Event :=
  notifyLoop env article journal
    (get_users_subscribed_to_journal db journal.id) db

/-- The parameter names Repository.create_article accepts (repository.py). -/
def createArticleParams : List String :=
  ["journal_id", "title", "link", "abstract", "authors", "doi", "published_date"]

/-- The keyword arguments FeedScheduler.check_journal_feed passes to
repository.create_article (scheduler.py). -/
def checkFeedCreateKwargs : List String :=
  ["journal_id", "title", "link", "abstract", "authors", "doi",
   "published_date", "volume", "issue"]

/-- Python call semantics: keyword arguments outside the parameter list of
the callee raise TypeError before the body runs. -/
def unexpectedKwargs (params kwargs : List String) : List String :=
  kwargs.filter (fun k => !params.contains k)

/-- Lines 90 to 94 of scheduler.py: the feed abstract is kept, and only for
a journal flagged needs_scraping with a falsy parsed abstract is the
enrichment collaborator consulted. -/
def scrapeIfNeeded (env : Env) (j : Journal) (p : ParsedArticle) : Option String :=
  if j.needs_scraping && !pyTruthy p.abstract then env.scrape p.link
  else p.abstract

/-- One scheduled feed check of a journal, per candidate list. -/
structure CheckResult where
  err : Option PyError := none
  db : DB
  new_count : Nat := 0
  events : List Event := []

/-- The candidate loop of FeedScheduler.check_journal_feed: skip stored
links; fill a missing abstract from the scraper when the journal needs it;
then the create_article call — it passes the keyword arguments volume and
issue, which the repository signature does not accept, so Python raises
TypeError at the call, before any insert; a created article is announced
through notify_subscribers. -/
def checkFeedLoop (env : Env) (j : Journal) :
    List ParsedArticle → DB → CheckResult
  | [], db => { db := db }
  | p :: rest, db =>
      if article_exists db p.link then checkFeedLoop env j rest db
      else
        let abstract := scrapeIfNeeded env j p
        if !(unexpectedKwargs createArticleParams checkFeedCreateKwargs).isEmpty then
          { err := some .typeError, db := db }
        else
          match create_article db j.id p.title p.link abstract
              p.authors p.doi p.published_date with
          | (some a, db2) =>
              let (db3, evs) := notify_subscribers env a j db2
              let r := checkFeedLoop env j rest db3
              { r with new_count := r.new_count + 1, events := evs ++ r.events }
          | (none, db2) => checkFeedLoop env j rest db2

/-- FeedScheduler.check_journal_feed: parse, run the candidate loop, and —
only when no exception interrupted it — update the last-checked stamp. -/
def check_journal_feed (env : Env) (j : Journal) (db : DB) : CheckResult :=
  let r := checkFeedLoop env j (parse_from_url (env.fetch j)) db
  match r.err with
  | some _ => r
  | none => { r with db := update_journal_last_checked r.db j.id }

/-- One whole scheduled pass. -/
structure PassResult where
  db : DB
  events : List Event := []
  /-- Journals whose check raised, with the exception — the per-journal
  except block logs them and the pass continues. -/
  errors : List (Nat × PyError) := []

/-- The journal loop of FeedScheduler.check_all_feeds. -/
def checkAllLoop (env : Env) : List Journal → DB → PassResult
  | [], db => { db := db }
  | j :: rest, db =>
      let r := check_journal_feed env j db
      let acc := checkAllLoop env rest r.db
      match r.err with
      | some e =>
          { acc with events := r.events ++ acc.events
                     errors := (j.id, e) :: acc.errors }
      | none => { acc with events := r.events ++ acc.events }

/-- FeedScheduler.check_all_feeds over all active journals. -/
def check_all_feeds (env : Env) (db : DB) : PassResult :=
  checkAllLoop env (get_all_journals db) db

/-- article.journal.name if article.journal else "Unknown". -/
def journalNameOf (db : DB) (a : Article) : String :=
  match db.journals.find? (fun j => j.id == a.journal_id) with
  | some j => j.name
  | none => "Unknown"

/-- The body of the per-article try block of ArticlesHandler.latest_command:
tailor (a None or failed tailoring skips the article), send through the
swallowing reply helper, then mark as sent (a ValueError is caught by the
per-article except and only logged). -/
def latestBody (env : Env) (user : User) (article : Article) (db : DB) :
    DB × List Event :=
  match env.tailor user article (journalNameOf db article) with
  | none => (db, [])
  | some tailored =>
      let telegram_text := Formatting.markdown_to_telegram tailored
      let outcome := reply_tailored env user.telegram_id telegram_text
      match mark_article_sent db user.telegram_id article.id (some tailored) with
      | .ok db2 =>
          (db2, [.dispatched user.telegram_id article.id outcome,
                 .marked user.telegram_id article.id])
      | .error _ =>
          (db, [.dispatched user.telegram_id article.id outcome])

/-- The per-article loop of ArticlesHandler.latest_command. -/
def latestLoop (env : Env) (user : User) :
    List Article → DB → DB × List Event
  | [], db => (db, [])
  | article :: rest, db =>
      let (db2, evs) := latestBody env user article db
      let (db3, evs2) := latestLoop env user rest db2
      (db3, evs ++ evs2)

/-- ArticlesHandler.latest_command: an unknown or not-onboarded user and a
user without subscriptions are no-ops; otherwise the unsent backlog is
resolved once and its first five entries are delivered. -/
def latest_command (env : Env) (db : DB) (telegram_id : Nat) : DB × List Event :=
  match findUserByTid db telegram_id with
  | none => (db, [])
  | some user =>
      if !user.onboarding_complete then (db, [])
      else if (get_user_subscriptions db user.telegram_id).isEmpty then (db, [])
      else
        let articles := get_unsent_articles_for_user db user.telegram_id
        latestLoop env user (articles.take 5) db

/-- The pipeline invocations that can dispatch content to users. -/
inductive Step where
  | feedCheck (env : Env)
  | notify (env : Env) (article : Article) (journal : Journal)
  | backlog (env : Env) (telegram_id : Nat)

def runStep (db : DB) : Step → DB × List Event
  | .feedCheck env => let r := check_all_feeds env db; (r.db, r.events)
  | .notify env a j => notify_subscribers env a j db
  | .backlog env tid => latest_command env db tid

/-- Any interleaving of scheduled passes, notify invocations and on-demand
backlog fetches. -/
def runTrace (db : DB) : List Step → DB × List Event
  | [] => (db, [])
  | s :: rest =>
      let (db2, evs) := runStep db s
      let (db3, evs2) := runTrace db2 rest
      (db3, evs ++ evs2)

/-- Number of dispatches for one (user, article) pair in an event list. -/
def dispCount (evs : List Event) (tid aid : Nat) : Nat :=
  evs.countP (fun e =>
    match e with
    | .dispatched t a _ => t == tid && a == aid
    | _ => false)

/-- The primary-key and autoincrement facts the store guarantees:
article ids are distinct and below the next-id counter. -/
def dbInv (db : DB) : Prop :=
  (db.articles.map (fun a => a.id)).Nodup ∧
  ∀ a ∈ db.articles, a.id < db.nextArticleId

end Scheduler

/-! ## Specification-side definitions

These follow the wording of the specification (not the source) and exist to
be compared against the embedded source functions.
-/

namespace Spec

open Models Repository FeedParser Scheduler

/-- The abstract source priority as the specification words it: summary,
else description, else the first content block. -/
def specAbstractSource (e : Entry) : Option String :=
  if e.summary.isSome then e.summary
  else if e.description.isSome then e.description
  else e.content.head?

/-- The abstract pipeline as the specification words it: the chosen source
is stripped and normalized and a result shorter than 50 characters is
discarded, an empty source passing through untouched. -/
def specAbstractPipeline (e : Entry) : Option String :=
  match specAbstractSource e with
  | none => none
  | some a =>
      if a = "" then some a
      else
        let c := clean_html a
        if c.length < 50 then none else some c

/-- The three author sources in specification order: the structured
author-list names (falsy names skipped), the singular author field when it
is a str, and the creator field (single value or list). -/
def specAuthorSources (e : Entry) : List (List String) :=
  [match e.authors with
   | some items => items.filter (fun n => n ≠ "")
   | none => [],
   match e.author with
   | some (.str s) => [s]
   | _ => [],
   match e.dc_creator with
   | some (.inl s) => [s]
   | some (.inr l) => l
   | none => []]

/-- The authors rule as the specification claims it: the first source that
yields any names wins, comma-joined; the later sources are ignored. -/
def specFirstSourceAuthors (e : Entry) : Option String :=
  match (specAuthorSources e).find? (fun src => !src.isEmpty) with
  | some src => some (String.intercalate ", " src)
  | none => none

/-- The authors rule the source actually implements: every source
contributes, in order, comma-joined. -/
def specAccumulatedAuthors (e : Entry) : Option String :=
  if (specAuthorSources e).flatten.isEmpty then none
  else some (String.intercalate ", " (specAuthorSources e).flatten)

/-- The backlog set as the specification words it: the articles of the
journals the user actively subscribes to, minus the articles already among
the user's delivery records. -/
def userUnsent (db : DB) (u : User) : List Article :=
  db.articles.filter (fun a =>
    db.subs.any (fun s =>
      s.user_id == u.id && s.is_active && s.journal_id == a.journal_id) &&
    !(db.sent.any (fun s => s.user_id == u.id && s.article_id == a.id)))

end Spec

/-! ## Concrete instances used by the closed theorems and witnesses -/

namespace Inputs

open Models Repository FeedParser Scheduler

/-- An environment in which every collaborator behaves, tailored text is a
constant and sends succeed. -/
def benignEnv : Env :=
  { fetch := fun _ => none
    scrape := fun _ => none
    tailor := fun _ _ _ => some "Tailored summary"
    sendMarkdownFails := fun _ _ => false
    sendPlainFails := fun _ _ => false }

/- C2: one onboarded subscriber, one stored article, tailoring succeeds and
both send attempts raise. -/

def uC2 : User := { id := 1, telegram_id := 100, onboarding_complete := true }

def jC2 : Journal := { id := 1, name := "Journal of Periodontology" }

def aC2 : Article :=
  { id := 5, journal_id := 1, title := "Title", link := "https://example.org/p5"
    link_hash := "unused", fetched_at := 0 }

def dbC2 : DB :=
  { users := [uC2], journals := [jC2]
    subs := [{ user_id := 1, journal_id := 1 }]
    articles := [aC2], sent := [], nextArticleId := 6, clock := 0 }

def envC2 : Env :=
  { benignEnv with
      sendMarkdownFails := fun _ _ => true
      sendPlainFails := fun _ _ => true }

/- C3: three active journals; the feed of the second fails at transport
while the feeds of the first and third carry one already-stored entry
each. -/

def jC3a : Journal := { id := 1, name := "Australian Dental Journal", feed_url := "https://example.org/a" }
def jC3b : Journal := { id := 2, name := "British Dental Journal", feed_url := "https://example.org/b" }
def jC3c : Journal := { id := 3, name := "Caries Research", feed_url := "https://example.org/c" }

def entryC3a : Entry :=
  { title := "Stored article one", link := "https://example.org/articles/a1" }

def entryC3c : Entry :=
  { title := "Stored article two", link := "https://example.org/articles/c1" }

def dbC3 : DB :=
  { users := [], journals := [jC3a, jC3b, jC3c], subs := []
    articles :=
      [{ id := 1, journal_id := 1, title := "Stored article one"
         link := "https://example.org/articles/a1"
         link_hash := hash_link "https://example.org/articles/a1", fetched_at := 0 },
       { id := 2, journal_id := 3, title := "Stored article two"
         link := "https://example.org/articles/c1"
         link_hash := hash_link "https://example.org/articles/c1", fetched_at := 0 }]
    sent := [], nextArticleId := 3, clock := 0 }

def envC3 : Env :=
  { benignEnv with
      fetch := fun j =>
        if j.id == 1 then some { entries := [entryC3a] }
        else if j.id == 3 then some { entries := [entryC3c] }
        else none }

/- C4: an empty store and a feed with one new entry. -/

def jC4 : Journal := { id := 1, name := "Journal of Dental Research", feed_url := "https://example.org/jdr" }

def entryC4 : Entry :=
  { title := "A new article", link := "https://example.org/articles/new1" }

def dbC4 : DB :=
  { users := [], journals := [jC4], subs := [], articles := [], sent := []
    nextArticleId := 1, clock := 0 }

def envC4 : Env :=
  { benignEnv with fetch := fun _ => some { entries := [entryC4] } }

/- C5: a journal that needs scraping; entry A carries a 120-character
abstract, entry B carries none; the scraper would answer for B. -/

def jC5 : Journal :=
  { id := 1, name := "Nature Reviews Disease Primers"
    feed_url := "https://example.org/nature", needs_scraping := true }

/-- A 120-character feed abstract. -/
def abstractC5 : String :=
  "This randomized controlled trial evaluates the effects of fluoride varnish on early childhood caries over twenty months."

def entryC5A : Entry :=
  { title := "Article A", link := "https://example.org/articles/A"
    summary := some abstractC5 }

def entryC5B : Entry :=
  { title := "Article B", link := "https://example.org/articles/B" }

def dbC5 : DB :=
  { users := [], journals := [jC5], subs := [], articles := [], sent := []
    nextArticleId := 1, clock := 0 }

def envC5 : Env :=
  { benignEnv with
      fetch := fun _ => some { entries := [entryC5A, entryC5B] }
      scrape := fun _ => some "An abstract recovered from the article landing page by the enrichment collaborator." }

/- C6 witness: one user actively subscribed to one journal with 25 unsent
articles. -/

def uW6 : User := { id := 1, telegram_id := 7, onboarding_complete := true }

def dbW6 : DB :=
  { users := [uW6]
    journals := [{ id := 1, name := "Journal of Endodontics" }]
    subs := [{ user_id := 1, journal_id := 1 }]
    articles := (List.range 25).map (fun i =>
      { id := i + 1, journal_id := 1, title := "Article"
        link := "l", link_hash := "h", fetched_at := i + 1 })
    sent := [], nextArticleId := 26, clock := 100 }

/- C7 witness: an entry whose summary is exactly 40 characters long. -/

def eW7 : Entry := { summary := some "Forty characters of abstract text here.." }

def jW7 : Journal := { id := 9, name := "Nature", needs_scraping := true }

/-- The candidate parsed from eW7, as the check pass would see it. -/
def pW7 : ParsedArticle :=
  { title := "Title", link := "https://example.org/w"
    abstract := FeedParser.extract_abstract eW7
    authors := none, doi := none, published_date := none }

/- C8: an entry offering names in all three author sources. -/

def eC8 : Entry :=
  { authors := some ["Alice"]
    author := some (.str "Bob")
    dc_creator := some (.inl "Carol") }

/- C9 witness: an onboarded and a half-onboarded user, both with an active
subscription to journal 1. -/

def uW9 : User := { id := 1, telegram_id := 100, onboarding_complete := true }

def uHW9 : User := { id := 2, telegram_id := 200, onboarding_complete := false }

def dbW9 : DB :=
  { users := [uW9, uHW9]
    journals := [{ id := 1, name := "Journal of Clinical Periodontology" }]
    subs := [{ user_id := 1, journal_id := 1 }, { user_id := 2, journal_id := 1 }]
    articles := [], sent := [], nextArticleId := 1, clock := 0 }

/- C1 witness: a subscriber and an article, notified twice. -/

def dbW1 : DB :=
  { users := [uC2], journals := [jC2]
    subs := [{ user_id := 1, journal_id := 1 }]
    articles := [aC2], sent := [], nextArticleId := 6, clock := 0 }

/- C10: two distinct 72-byte links with the same MD5 digest (a known
public MD5 collision differing only at index 21), and the no-canonicalization
variant links named by the claim. -/

def collA : String :=
  "TEXTCOLLBYfGiJUETHQ4hAcKSMd5zYpgqf1YRDhkmxHkhPWptrkoyz28wnI9V0aHeAuaKnak"

def collB : String :=
  "TEXTCOLLBYfGiJUETHQ4hEcKSMd5zYpgqf1YRDhkmxHkhPWptrkoyz28wnI9V0aHeAuaKnak"

def dbEmpty : DB :=
  { users := [], journals := [], subs := [], articles := [], sent := []
    nextArticleId := 1, clock := 0 }

/-- The store after ingesting collA. -/
def dbColl : DB := (create_article dbEmpty 1 "First" collA).2

/-- The store after ingesting the plain variant link. -/
def dbSlash : DB := (create_article dbEmpty 1 "Plain" "https://example.com/a").2

end Inputs

/-! ## Delivery-ledger step contracts (used by the at-most-once proof) -/

namespace Scheduler

open Models Repository

/-- The parts of the store the delivery guard reads move only forward
across an operation: users are untouched and delivery records are only
appended. -/
def sentExt (db db2 : DB) : Prop :=
  db2.users = db.users ∧ ∃ ext, db2.sent = db.sent ++ ext

/-- The contract one pipeline invocation upholds for the ledger: the guard
state only grows, a pair is dispatched at most once, a pair already in the
ledger is never dispatched, and a dispatched pair lands in the ledger. -/
def stepOk (db db2 : DB) (evs : List Event) : Prop :=
  sentExt db db2 ∧
  ∀ tid aid,
    dispCount evs tid aid ≤ 1 ∧
    (was_article_sent_to_user db tid aid = true → dispCount evs tid aid = 0) ∧
    (1 ≤ dispCount evs tid aid →
      was_article_sent_to_user db2 tid aid = true)

end Scheduler

/-! ## Theorems -/

open Models Repository FeedParser Scheduler Spec Inputs

/-- C2: the claim says a delivery record is created only when the dispatch
is judged successful and that after both send attempts fail no record is
created.  The code disagrees: main.py send_message_callback swallows the
second exception and returns normally, so the notify loop cannot observe
the failure and mark_article_sent still runs.  With both send attempts
raising, the pass records the delivery (outcome failedBoth, then marked)
and the pair leaves the backlog forever. -/
theorem C2_mark_despite_failed_send :
    (notify_subscribers envC2 aC2 jC2 dbC2).1.sent =
      [{ user_id := 1, article_id := 5
         tailored_content := some "Tailored summary", sent_at := 0 }] ∧
    (notify_subscribers envC2 aC2 jC2 dbC2).2 =
      [.dispatched 100 5 .failedBoth, .marked 100 5] ∧
    was_article_sent_to_user (notify_subscribers envC2 aC2 jC2 dbC2).1 100 5 = true := by
  decide

/-- C4: the claim says one pass over a feed stores one Article per distinct
link and a second pass creates zero new ones.  The code stores nothing at
all: check_journal_feed passes the keyword arguments volume and issue to
Repository.create_article, whose signature does not accept them, so Python
raises TypeError at the first new candidate; both the first and the second
run leave the store empty with no last-checked update. -/
theorem C4_ingestion_type_error :
    (check_journal_feed envC4 jC4 dbC4).err = some .typeError ∧
    (check_journal_feed envC4 jC4 dbC4).db = dbC4 ∧
    (check_journal_feed envC4 jC4 dbC4).new_count = 0 ∧
    (check_journal_feed envC4 jC4 (check_journal_feed envC4 jC4 dbC4).db).db.articles = [] := by
  decide

/-- C5: the claim says a pass over a needs-enrichment journal with entries
A (120-character abstract) and B (no abstract) stores both (B enriched)
and bumps last_checked once.  The code raises TypeError at the
create_article call for A (unexpected keyword arguments volume and issue),
so nothing is stored, the scraper is never consulted for B, and
last_checked stays untouched. -/
theorem C5_enrichment_pass_type_error :
    (check_journal_feed envC5 jC5 dbC5).err = some .typeError ∧
    (check_journal_feed envC5 jC5 dbC5).db = dbC5 ∧
    ((check_journal_feed envC5 jC5 dbC5).db.journals.find? (fun j => j.id == 1)).map
      (fun j => j.last_checked) = some none ∧
    extract_abstract entryC5A = some abstractC5 ∧
    extract_abstract entryC5B = none := by
  decide

/-- C3 counterexample: in a pass over three journals where the second
fails at transport, the claim says the second journal's last-checked
timestamp is NOT updated.  It is: fetch_feed catches the HTTPError and
returns None, parse_from_url degrades that to an empty candidate list, and
check_journal_feed still reaches update_journal_last_checked.  Here all
three journals end the pass with a fresh stamp (the second at clock 1). -/
theorem C3_counterexample :
    ((check_all_feeds envC3 dbC3).db.journals.find? (fun j => j.id == 2)).map
      (fun j => j.last_checked) = some (some 1) ∧
    envC3.fetch jC3b = none ∧
    (check_all_feeds envC3 dbC3).errors = [] := by
  decide

/-- C8 counterexample: an entry offering names in the structured author
list, the singular author field and the creator field.  The claim says
only the first non-empty source is used (giving "Alice"); the source
accumulates all three, giving "Alice, Bob, Carol". -/
theorem C8_counterexample :
    extract_authors eC8 = some "Alice, Bob, Carol" ∧
    specFirstSourceAuthors eC8 = some "Alice" ∧
    extract_authors eC8 ≠ specFirstSourceAuthors eC8 := by
  decide

/-- C10 counterexample: two known distinct 72-byte strings differing in a
single character whose MD5 digests coincide; used as links, the second is
treated as an already-existing article by article_exists and
create_article, so links differing in a character are not always distinct
articles. -/
theorem C10_counterexample :
    collA ≠ collB ∧
    hash_link collA = hash_link collB ∧
    (create_article dbEmpty 1 "First" collA).1.isSome = true ∧
    article_exists dbColl collB = true ∧
    (create_article dbColl 1 "Second" collB).1 = none := by
  decide

/-- Helper: every dispatch event of the subscriber loop names the telegram
id of a processed subscriber. -/
theorem notifyLoop_dispatch_mem (env : Env) (a : Article) (j : Journal) :
    ∀ (L : List User) (db : DB) (tid aid : Nat) (o : SendOutcome),
      Event.dispatched tid aid o ∈ (notifyLoop env a j L db).2 →
      ∃ w ∈ L, w.telegram_id = tid := by
  intro L
  induction L with
  | nil => intro db tid aid o h; simp [notifyLoop] at h
  | cons u rest ih =>
      intro db tid aid o h
      simp only [notifyLoop] at h
      rw [List.mem_append] at h
      rcases h with h | h
      · refine ⟨u, List.mem_cons_self u rest, ?_⟩
        unfold notifyUser at h
        split at h
        · simp at h
        · split at h
          · simp at h
          · split at h <;> simp at h <;> exact h.1.symm
      · obtain ⟨w, hw, hwt⟩ := ih _ tid aid o h
        exact ⟨w, List.mem_cons_of_mem u hw, hwt⟩

/-- C9: get_users_subscribed_to_journal returns exactly the users holding
an active subscription to the journal who completed onboarding, and every
dispatch of the notify path goes to a member of that set, so a
half-onboarded user never receives content from it. -/
theorem C9_subscriber_filter :
    ∀ (db : DB) (journal_id : Nat) (u : User),
      (u ∈ get_users_subscribed_to_journal db journal_id ↔
        u ∈ db.users ∧ u.onboarding_complete = true ∧
        ∃ s ∈ db.subs, s.user_id = u.id ∧ s.journal_id = journal_id ∧
          s.is_active = true) ∧
      (∀ (env : Env) (a : Article) (j : Journal) (tid aid : Nat) (o : SendOutcome),
        Event.dispatched tid aid o ∈ (notify_subscribers env a j db).2 →
        ∃ w ∈ get_users_subscribed_to_journal db j.id, w.telegram_id = tid) := by
  intro db journal_id u
  constructor
  · simp only [get_users_subscribed_to_journal, List.mem_filter,
      Bool.and_eq_true, List.any_eq_true, beq_iff_eq]
    constructor
    · rintro ⟨hu, ⟨s, hs, ⟨h1, h2⟩, h3⟩, hob⟩
      exact ⟨hu, hob, s, hs, h1, h2, h3⟩
    · rintro ⟨hu, hob, s, hs, h1, h2, h3⟩
      exact ⟨hu, ⟨s, hs, ⟨h1, h2⟩, h3⟩, hob⟩
  · intro env a j tid aid o h
    exact notifyLoop_dispatch_mem env a j _ db tid aid o h

/-- C9 witness: in a store holding an onboarded and a half-onboarded user,
both actively subscribed to journal 1, the subscriber set contains the
first and not the second. -/
theorem C9_witness :
    uW9 ∈ get_users_subscribed_to_journal dbW9 1 ∧
    uHW9 ∉ get_users_subscribed_to_journal dbW9 1 := by
  constructor
  · exact (C9_subscriber_filter dbW9 1 uW9).1.mpr
      ⟨by decide, rfl, { user_id := 1, journal_id := 1 }, by decide, rfl, rfl, rfl⟩
  · intro hmem
    have h := (C9_subscriber_filter dbW9 1 uHW9).1.mp hmem
    exact absurd h.2.1 (by decide)

/-- C8 amended: the authors field is not first-non-empty-wins; the source
accumulates names from all three sources in order — the structured list
names (falsy ones skipped), then the singular author field when it is a
str, then the creator value or values — and comma-joins them, None when no
source yields anything. -/
theorem C8_authors_accumulated :
    ∀ e : Entry, extract_authors e = specAccumulatedAuthors e := by
  intro e
  unfold extract_authors specAccumulatedAuthors specAuthorSources
  rcases e.authors with _ | items <;>
    rcases e.author with _ | (s | _) <;>
      rcases e.dc_creator with _ | (s2 | l2) <;>
        simp [List.flatten, List.append_assoc]

/-- C7: the abstract pipeline equals the specified priority chain (summary,
else description, else first content block, cleaned, short results
discarded); any entry whose cleaned source falls below 50 characters
yields a falsy abstract, indistinguishable from an absent one; and for a
needs-scraping journal a falsy parsed abstract is exactly what routes the
candidate to the enrichment collaborator. -/
theorem C7_short_abstract_discard :
    ∀ (e : Entry) (env : Env) (j : Journal) (p : ParsedArticle),
      extract_abstract e = specAbstractPipeline e ∧
      ((∀ raw, specAbstractSource e = some raw → (clean_html raw).length < 50) →
        pyTruthy (extract_abstract e) = false) ∧
      (j.needs_scraping = true → pyTruthy p.abstract = false →
        scrapeIfNeeded env j p = env.scrape p.link) := by
  intro e env j p
  have h1 : extract_abstract e = specAbstractPipeline e := by
    unfold extract_abstract specAbstractPipeline specAbstractSource
    rcases e.summary with _ | s <;> rcases e.description with _ | d <;>
      rcases e.content with _ | ⟨c, cs⟩ <;> simp
  refine ⟨h1, ?_, ?_⟩
  · intro hshort
    rw [h1]
    unfold specAbstractPipeline
    cases hsrc : specAbstractSource e with
    | none => rfl
    | some a =>
        by_cases ha : a = ""
        · simp [ha, pyTruthy]
        · have hlen := hshort a hsrc
          simp [ha, if_pos hlen, pyTruthy]
  · intro hns hfalsy
    unfold scrapeIfNeeded
    rw [hns, hfalsy]
    rfl

/-- C7 witness: an entry with a 40-character summary is discarded and, on a
needs-scraping journal, routed to the scraper. -/
theorem C7_witness :
    pyTruthy (extract_abstract eW7) = false ∧
    scrapeIfNeeded envC5 jW7 pW7 = envC5.scrape pW7.link := by
  refine ⟨?_, ?_⟩
  · exact (C7_short_abstract_discard eW7 envC5 jW7 pW7).2.1
      (by intro raw h; simp only [specAbstractSource, eW7] at h;
          cases h; decide)
  · exact (C7_short_abstract_discard eW7 envC5 jW7 pW7).2.2 rfl (by decide)

/-- C10 amended: hash_link is deterministic and deduplication is decided
solely by the MD5 digest of the exact link string with no canonicalization
— the trailing-slash, query-parameter and scheme-case variants named by
the claim all hash apart and are stored as distinct articles — but two
links differing in one character are not always distinct: MD5 collisions
exist and collide in the store. -/
theorem C10_hash_dedup_amended :
    (∀ l1 l2 : String, l1 = l2 → hash_link l1 = hash_link l2) ∧
    (∀ (db : DB) (l1 l2 : String), hash_link l1 = hash_link l2 →
      article_exists db l1 = article_exists db l2) ∧
    (hash_link "https://example.com/a" ≠ hash_link "https://example.com/a/" ∧
     hash_link "https://example.com/a" ≠ hash_link "https://example.com/a?x=1" ∧
     hash_link "https://example.com/a" ≠ hash_link "HTTPS://example.com/a") ∧
    (article_exists dbSlash "https://example.com/a/" = false ∧
     (create_article dbSlash 1 "Variant" "https://example.com/a/").1.isSome = true) ∧
    (∃ l1 l2 : String, l1 ≠ l2 ∧ hash_link l1 = hash_link l2) := by
  refine ⟨fun l1 l2 h => h ▸ rfl, fun db l1 l2 h => ?_, by decide, by decide,
    collA, collB, by decide, by decide⟩
  unfold article_exists
  rw [h]

/-- C10 witness: the deterministic and digest-driven clauses applied at
concrete links. -/
theorem C10_witness :
    hash_link "https://example.com/a" = hash_link "https://example.com/a" ∧
    article_exists dbEmpty collA = article_exists dbEmpty collB :=
  ⟨C10_hash_dedup_amended.1 "https://example.com/a" "https://example.com/a" rfl,
   C10_hash_dedup_amended.2.1 dbEmpty collA collB (by decide)⟩

/-- Helper: inserting into the fetched-at-descending sort permutes. -/
theorem insertByFetchedDesc_perm (a : Article) :
    ∀ l : List Article, List.Perm (insertByFetchedDesc a l) (a :: l) := by
  intro l
  induction l with
  | nil => exact .refl _
  | cons x xs ih =>
      unfold insertByFetchedDesc
      split
      · exact .refl _
      · exact (ih.cons x).trans (List.Perm.swap a x xs)

/-- Helper: sortByFetchedDesc permutes its input. -/
theorem sortByFetchedDesc_perm :
    ∀ l : List Article, List.Perm (sortByFetchedDesc l) l := by
  intro l
  induction l with
  | nil => exact .refl _
  | cons x xs ih => exact (insertByFetchedDesc_perm x _).trans (ih.cons x)

/-- Helper: insertion preserves the fetched-at-descending order. -/
theorem insertByFetchedDesc_sorted (a : Article) :
    ∀ l, List.Pairwise (fun u v => v.fetched_at ≤ u.fetched_at) l →
      List.Pairwise (fun u v => v.fetched_at ≤ u.fetched_at)
        (insertByFetchedDesc a l) := by
  intro l
  induction l with
  | nil => intro _; exact List.pairwise_singleton _ a
  | cons x xs ih =>
      intro hp
      rw [List.pairwise_cons] at hp
      obtain ⟨hx, hxs⟩ := hp
      unfold insertByFetchedDesc
      split
      · rename_i hle
        refine List.Pairwise.cons ?_ (List.Pairwise.cons hx hxs)
        intro y hy
        rcases List.mem_cons.mp hy with rfl | hy2
        · exact hle
        · exact le_trans (hx y hy2) hle
      · rename_i hgt
        refine List.Pairwise.cons ?_ (ih hxs)
        intro y hy
        rcases List.mem_cons.mp ((insertByFetchedDesc_perm a xs).mem_iff.mp hy) with
          rfl | hy2
        · exact le_of_not_le hgt
        · exact hx y hy2

/-- Helper: the sort is fetched-at descending. -/
theorem sortByFetchedDesc_sorted :
    ∀ l, List.Pairwise (fun u v => v.fetched_at ≤ u.fetched_at)
      (sortByFetchedDesc l) := by
  intro l
  induction l with
  | nil => exact .nil
  | cons x xs ih => exact insertByFetchedDesc_sorted x _ ih

/-- Helper: membership of an id among the mapped ids of a filtered list,
as an any over the original rows. -/
theorem any_map_filter {α : Type} (p : α → Bool) (f : α → Nat) (x : Nat) :
    ∀ l : List α,
      (((l.filter p).map f).any (fun i => i == x)) =
        l.any (fun s => p s && f s == x) := by
  intro l
  induction l with
  | nil => rfl
  | cons s rest ih =>
      by_cases h : p s = true
      · simp [List.filter_cons, h, ih]
      · simp [List.filter_cons, h, ih, Bool.false_and]

/-- Helper: when a filter empties a list, any stronger test fails on it. -/
theorem any_false_of_filter_nil {α : Type} (p q : α → Bool)
    (himp : ∀ s, q s = true → p s = true) :
    ∀ l : List α, l.filter p = [] → l.any q = false := by
  intro l hf
  rw [← Bool.not_eq_true]
  intro hq
  obtain ⟨s, hs, hqs⟩ := List.any_eq_true.mp hq
  exact (List.filter_eq_nil.mp hf) s hs (himp s hqs)

/-- Helper: the backlog query equals the take-20 of the sorted
specification set. -/
theorem get_unsent_eq (db : DB) (tid : Nat) (u : User)
    (hu : findUserByTid db tid = some u) :
    get_unsent_articles_for_user db tid =
      (sortByFetchedDesc (userUnsent db u)).take 20 := by
  have hjmap : ∀ a : Article,
      (((db.subs.filter (fun s => s.user_id == u.id && s.is_active)).map
          (fun s => s.journal_id)).any (fun i => i == a.journal_id)) =
        db.subs.any (fun s =>
          s.user_id == u.id && s.is_active && s.journal_id == a.journal_id) := by
    intro a
    rw [any_map_filter]
  have hsmap : ∀ aid : Nat,
      (((db.sent.filter (fun s => s.user_id == u.id)).map
          (fun s => s.article_id)).any (fun i => i == aid)) =
        db.sent.any (fun s => s.user_id == u.id && s.article_id == aid) := by
    intro aid
    rw [any_map_filter]
  simp only [get_unsent_articles_for_user, hu]
  by_cases hje :
      (((db.subs.filter (fun s => s.user_id == u.id && s.is_active)).map
        (fun s => s.journal_id)).isEmpty) = true
  · have hfe : db.subs.filter (fun s => s.user_id == u.id && s.is_active) = [] :=
      List.map_eq_nil.mp (List.isEmpty_iff.mp hje)
    have hnone : ∀ a : Article,
        db.subs.any (fun s =>
          s.user_id == u.id && s.is_active && s.journal_id == a.journal_id) = false := by
      intro a
      refine any_false_of_filter_nil _ _ ?_ db.subs hfe
      intro s hq
      simp only [Bool.and_eq_true] at hq ⊢
      exact hq.1
    have hUU : userUnsent db u = [] := by
      apply List.filter_eq_nil.mpr
      intro a _
      simp [hnone a]
    rw [hje, hUU]
    simp [sortByFetchedDesc]
  · rw [Bool.not_eq_true] at hje
    rw [hje]
    simp only [Bool.false_eq_true, if_false]
    by_cases hse :
        (((db.sent.filter (fun s => s.user_id == u.id)).map
          (fun s => s.article_id)).isEmpty) = true
    · have hfs : db.sent.filter (fun s => s.user_id == u.id) = [] :=
        List.map_eq_nil.mp (List.isEmpty_iff.mp hse)
      have hnos : ∀ aid : Nat,
          db.sent.any (fun s => s.user_id == u.id && s.article_id == aid) = false := by
        intro aid
        refine any_false_of_filter_nil _ _ ?_ db.sent hfs
        intro s hq
        simp only [Bool.and_eq_true] at hq
        exact hq.1
      rw [hse]
      simp only [if_true]
      have hfilters :
          db.articles.filter (fun a =>
            ((db.subs.filter (fun s => s.user_id == u.id && s.is_active)).map
              (fun s => s.journal_id)).any (fun i => i == a.journal_id)) =
          userUnsent db u := by
        unfold userUnsent
        apply List.filter_congr
        intro a _
        rw [hjmap a, hnos a.id]
        simp
      rw [hfilters]
    · rw [Bool.not_eq_true] at hse
      rw [hse]
      simp only [Bool.false_eq_true, if_false]
      have hfilters :
          (db.articles.filter (fun a =>
            ((db.subs.filter (fun s => s.user_id == u.id && s.is_active)).map
              (fun s => s.journal_id)).any (fun i => i == a.journal_id))).filter
            (fun a =>
              !((db.sent.filter (fun s => s.user_id == u.id)).map
                (fun s => s.article_id)).any (fun i => i == a.id)) =
          userUnsent db u := by
        rw [List.filter_filter]
        unfold userUnsent
        apply List.filter_congr
        intro a _
        rw [hjmap a, hsmap a.id, Bool.and_comm]
      rw [hfilters]

/-- C6: the backlog resolver returns exactly the most recent unsent
articles of the user's actively subscribed journals: it is the 20-capped
fetched-at-descending prefix of the specification set — every returned
article is in that set, the length is the smaller of 20 and the set size,
the output is ordered newest first, anything left out is no newer than
anything returned, and a user with 25 unsent articles receives exactly
20. -/
theorem C6_backlog_cap_and_order :
    ∀ (db : DB) (tid : Nat) (u : User),
      findUserByTid db tid = some u →
      get_unsent_articles_for_user db tid =
        (sortByFetchedDesc (userUnsent db u)).take 20 ∧
      (get_unsent_articles_for_user db tid).length =
        min 20 (userUnsent db u).length ∧
      List.Pairwise (fun x y => y.fetched_at ≤ x.fetched_at)
        (get_unsent_articles_for_user db tid) ∧
      (∀ a ∈ get_unsent_articles_for_user db tid, a ∈ userUnsent db u) ∧
      (∀ a ∈ userUnsent db u, a ∉ get_unsent_articles_for_user db tid →
        ∀ b ∈ get_unsent_articles_for_user db tid, a.fetched_at ≤ b.fetched_at) ∧
      ((userUnsent db u).length = 25 →
        (get_unsent_articles_for_user db tid).length = 20) := by
  intro db tid u hu
  have heq := get_unsent_eq db tid u hu
  have hperm := sortByFetchedDesc_perm (userUnsent db u)
  have hsorted := sortByFetchedDesc_sorted (userUnsent db u)
  have hlen : (get_unsent_articles_for_user db tid).length =
      min 20 (userUnsent db u).length := by
    rw [heq, List.length_take, hperm.length_eq]
  refine ⟨heq, hlen, ?_, ?_, ?_, ?_⟩
  · rw [heq]
    exact List.Pairwise.sublist (List.take_sublist 20 _) hsorted
  · intro a ha
    rw [heq] at ha
    exact hperm.mem_iff.mp ((List.take_sublist 20 _).subset ha)
  · intro a ha hnotin b hb
    rw [heq] at hnotin hb
    have hmem : a ∈ sortByFetchedDesc (userUnsent db u) := hperm.mem_iff.mpr ha
    rw [← List.take_append_drop 20 (sortByFetchedDesc (userUnsent db u))] at hmem
    rcases List.mem_append.mp hmem with h1 | h2
    · exact absurd h1 hnotin
    · have hpa := List.pairwise_append.mp
        (show List.Pairwise (fun u v => v.fetched_at ≤ u.fetched_at)
          ((sortByFetchedDesc (userUnsent db u)).take 20 ++
           (sortByFetchedDesc (userUnsent db u)).drop 20) by
          rw [List.take_append_drop]; exact hsorted)
      exact hpa.2.2 b hb a h2
  · intro h25
    rw [hlen, h25]
    decide

/-- C6 witness: a user subscribed to a journal holding 25 unsent articles
receives exactly 20. -/
theorem C6_witness :
    (get_unsent_articles_for_user dbW6 7).length = 20 ∧
    (userUnsent dbW6 uW6).length = 25 :=
  ⟨(C6_backlog_cap_and_order dbW6 7 uW6 rfl).2.2.2.2.2 (by decide), by decide⟩

/-- Helper: a candidate loop over links that are all stored is a no-op. -/
theorem checkFeedLoop_all_exist (env : Env) (j : Journal) :
    ∀ (ps : List ParsedArticle) (db : DB),
      (∀ p ∈ ps, article_exists db p.link = true) →
      checkFeedLoop env j ps db = { db := db } := by
  intro ps
  induction ps with
  | nil => intro db _; rfl
  | cons p rest ih =>
      intro db h
      have hp := h p (List.mem_cons_self p rest)
      unfold checkFeedLoop
      rw [if_pos hp]
      exact ih db (fun q hq => h q (List.mem_cons_of_mem p hq))

/-- Helper: a journal whose candidates are all already stored (in
particular one whose fetch failed at transport, which yields no
candidates) completes its check without an exception, performing only the
last-checked stamp. -/
theorem check_journal_feed_all_exist (env : Env) (j : Journal) (db : DB)
    (h : ∀ p ∈ parse_from_url (env.fetch j), article_exists db p.link = true) :
    check_journal_feed env j db =
      { db := update_journal_last_checked db j.id } := by
  unfold check_journal_feed
  rw [checkFeedLoop_all_exist env j _ db h]

/-- Helper: the stamped journal rows carry a timestamp. -/
theorem update_lc_target (db : DB) (jid : Nat) :
    ∀ j2 ∈ (update_journal_last_checked db jid).journals,
      j2.id = jid → j2.last_checked.isSome = true := by
  intro j2 h2 hid
  simp only [update_journal_last_checked] at h2
  obtain ⟨j0, _, heq⟩ := List.mem_map.mp h2
  by_cases hb : (j0.id == jid) = true
  · rw [if_pos hb] at heq
    rw [← heq]
    rfl
  · rw [if_neg hb] at heq
    subst heq
    exact absurd (by simp [hid]) hb

/-- Helper: stamping one journal never erases another journal's stamp. -/
theorem update_lc_mono (db : DB) (jid : Nat) :
    ∀ j2 ∈ (update_journal_last_checked db jid).journals,
      ∃ j0 ∈ db.journals, j2.id = j0.id ∧
        (j0.last_checked.isSome = true → j2.last_checked.isSome = true) := by
  intro j2 h2
  simp only [update_journal_last_checked] at h2
  obtain ⟨j0, hj0, heq⟩ := List.mem_map.mp h2
  by_cases hb : (j0.id == jid) = true
  · rw [if_pos hb] at heq
    exact ⟨j0, hj0, by rw [← heq], fun _ => by rw [← heq]; rfl⟩
  · rw [if_neg hb] at heq
    subst heq
    exact ⟨j0, hj0, rfl, id⟩

/-- C3 amended: in a pass over three journals where the second fails at
transport and the first and third feeds carry only already-stored links,
the first and third are processed normally, no exception escapes the pass
(the per-journal error log stays empty), and all three journals — the
transport-failed second one included — end with their last-checked
timestamps updated, because a caught transport failure degrades to an
empty candidate list rather than skipping the stamp. -/
theorem C3_batch_isolation_amended :
    ∀ (env : Env) (db : DB) (j1 j2 j3 : Journal),
      get_all_journals db = [j1, j2, j3] →
      env.fetch j2 = none →
      (∀ p ∈ parse_from_url (env.fetch j1), article_exists db p.link = true) →
      (∀ p ∈ parse_from_url (env.fetch j3), article_exists db p.link = true) →
      (check_all_feeds env db).errors = [] ∧
      (check_all_feeds env db).events = [] ∧
      (∀ j4 ∈ (check_all_feeds env db).db.journals,
        j4.id = j1.id ∨ j4.id = j2.id ∨ j4.id = j3.id →
        j4.last_checked.isSome = true) := by
  intro env db j1 j2 j3 hall hf2 h1 h3
  have e1 := check_journal_feed_all_exist env j1 db h1
  have h2 : ∀ p ∈ parse_from_url (env.fetch j2),
      article_exists (update_journal_last_checked db j1.id) p.link = true := by
    intro p hp
    rw [hf2] at hp
    simp [parse_from_url] at hp
  have e2 := check_journal_feed_all_exist env j2 (update_journal_last_checked db j1.id) h2
  have h3a : ∀ p ∈ parse_from_url (env.fetch j3),
      article_exists
        (update_journal_last_checked (update_journal_last_checked db j1.id) j2.id)
        p.link = true := by
    intro p hp
    exact h3 p hp
  have e3 := check_journal_feed_all_exist env j3
    (update_journal_last_checked (update_journal_last_checked db j1.id) j2.id) h3a
  have hpass : check_all_feeds env db =
      { db := update_journal_last_checked
          (update_journal_last_checked (update_journal_last_checked db j1.id) j2.id)
          j3.id } := by
    unfold check_all_feeds
    rw [hall]
    simp only [checkAllLoop, e1, e2, e3]
    rfl
  rw [hpass]
  refine ⟨rfl, rfl, ?_⟩
  intro j4 h4 hid
  rcases hid with hid | hid | hid
  · obtain ⟨b, hb, hbid, hbmono⟩ := update_lc_mono _ j3.id j4 h4
    obtain ⟨c, hc, hcid, hcmono⟩ := update_lc_mono _ j2.id b hb
    have hcj : c.id = j1.id := hcid.symm.trans (hbid.symm.trans hid)
    exact hbmono (hcmono (update_lc_target db j1.id c hc hcj))
  · obtain ⟨b, hb, hbid, hbmono⟩ := update_lc_mono _ j3.id j4 h4
    have hbj : b.id = j2.id := hbid.symm.trans hid
    exact hbmono (update_lc_target _ j2.id b hb hbj)
  · exact update_lc_target _ j3.id j4 h4 hid

/-- C3 witness: the amended statement at the concrete three-journal
store. -/
theorem C3_witness :
    (check_all_feeds envC3 dbC3).errors = [] ∧
    (∀ j4 ∈ (check_all_feeds envC3 dbC3).db.journals,
      j4.id = jC3a.id ∨ j4.id = jC3b.id ∨ j4.id = jC3c.id →
      j4.last_checked.isSome = true) := by
  have h := C3_batch_isolation_amended envC3 dbC3 jC3a jC3b jC3c
    (by decide) rfl (by decide) (by decide)
  exact ⟨h.1, h.2.2⟩

/-- Helper: sentExt is reflexive. -/
theorem sentExt_refl (db : DB) : sentExt db db :=
  ⟨rfl, [], (List.append_nil _).symm⟩

/-- Helper: sentExt composes. -/
theorem sentExt_trans {db db2 db3 : DB}
    (h1 : sentExt db db2) (h2 : sentExt db2 db3) : sentExt db db3 := by
  obtain ⟨hu1, e1, hs1⟩ := h1
  obtain ⟨hu2, e2, hs2⟩ := h2
  exact ⟨hu2.trans hu1, e1 ++ e2, by rw [hs2, hs1, List.append_assoc]⟩

/-- Helper: the delivery guard is monotone along sentExt. -/
theorem was_sent_mono {db db2 : DB} (tid aid : Nat) (h : sentExt db db2)
    (hw : was_article_sent_to_user db tid aid = true) :
    was_article_sent_to_user db2 tid aid = true := by
  obtain ⟨hu, ext, hs⟩ := h
  unfold was_article_sent_to_user findUserByTid at hw ⊢
  rw [hu, hs]
  cases hfind : db.users.find? (fun u => u.telegram_id == tid) with
  | none => rw [hfind] at hw; cases hw
  | some u0 =>
      rw [hfind] at hw
      show ((db.sent ++ ext).any fun s =>
        s.user_id == u0.id && s.article_id == aid) = true
      have hw2 : (db.sent.any fun s =>
          s.user_id == u0.id && s.article_id == aid) = true := hw
      rw [List.any_append, hw2, Bool.true_or]

/-- Helper: marking a found user yields exactly the appended record. -/
theorem mark_ok_of_found (db : DB) (tid aid : Nat) (c : Option String) (u0 : User)
    (hf : findUserByTid db tid = some u0) :
    mark_article_sent db tid aid c =
      .ok { db with
              sent := db.sent ++
                [{ user_id := u0.id, article_id := aid
                   tailored_content := c, sent_at := db.clock }]
              clock := db.clock + 1 } := by
  unfold mark_article_sent
  rw [hf]

/-- Helper: a successful mark is a sentExt step. -/
theorem mark_sentExt {db db2 : DB} (tid aid : Nat) (c : Option String)
    (hm : mark_article_sent db tid aid c = .ok db2) : sentExt db db2 := by
  unfold mark_article_sent at hm
  cases hf : findUserByTid db tid with
  | none => rw [hf] at hm; cases hm
  | some u0 => rw [hf] at hm; cases hm; exact ⟨rfl, _, rfl⟩

/-- Helper: a successful mark switches the guard on for its own pair. -/
theorem was_sent_after_mark {db db2 : DB} (tid aid : Nat) (c : Option String)
    (hm : mark_article_sent db tid aid c = .ok db2) :
    was_article_sent_to_user db2 tid aid = true := by
  unfold mark_article_sent at hm
  cases hf : findUserByTid db tid with
  | none => rw [hf] at hm; cases hm
  | some u0 =>
      rw [hf] at hm
      cases hm
      unfold was_article_sent_to_user
      rw [show findUserByTid
        { db with
            sent := db.sent ++
              [{ user_id := u0.id, article_id := aid
                 tailored_content := c, sent_at := db.clock }]
            clock := db.clock + 1 } tid = some u0 from hf]
      show ((db.sent ++
          [({ user_id := u0.id, article_id := aid
              tailored_content := c, sent_at := db.clock } : SentArticle)]).any fun s =>
        s.user_id == u0.id && s.article_id == aid) = true
      rw [List.any_append]
      simp

/-- Helper: a successful mark leaves the guard of every other article id
unchanged, for every user. -/
theorem mark_other_aid {db db2 : DB} (tid aid : Nat) (c : Option String)
    (hm : mark_article_sent db tid aid c = .ok db2) (tid2 aid2 : Nat)
    (hne : aid2 ≠ aid) :
    was_article_sent_to_user db2 tid2 aid2 =
      was_article_sent_to_user db tid2 aid2 := by
  unfold mark_article_sent at hm
  cases hf : findUserByTid db tid with
  | none => rw [hf] at hm; cases hm
  | some u0 =>
      rw [hf] at hm
      cases hm
      unfold was_article_sent_to_user
      have hfind2 : ∀ (s : List SentArticle) (k : Nat),
          findUserByTid { db with sent := s, clock := k } tid2 =
            findUserByTid db tid2 := fun _ _ => rfl
      rw [hfind2]
      cases findUserByTid db tid2 with
      | none => rfl
      | some u2 =>
          show ((db.sent ++
              [({ user_id := u0.id, article_id := aid
                  tailored_content := c, sent_at := db.clock } : SentArticle)]).any fun s =>
            s.user_id == u2.id && s.article_id == aid2) =
            (db.sent.any fun s => s.user_id == u2.id && s.article_id == aid2)
          rw [List.any_append]
          simp only [List.any_cons, List.any_nil, Bool.or_false]
          rw [show (aid == aid2) = false from beq_eq_false_iff_ne.mpr (Ne.symm hne)]
          simp

/-- Helper: a mark leaves article rows untouched. -/
theorem mark_rows {db db2 : DB} (tid aid : Nat) (c : Option String)
    (hm : mark_article_sent db tid aid c = .ok db2) :
    db2.articles = db.articles ∧ db2.nextArticleId = db.nextArticleId := by
  unfold mark_article_sent at hm
  cases hf : findUserByTid db tid with
  | none => rw [hf] at hm; cases hm
  | some u0 => rw [hf] at hm; cases hm; exact ⟨rfl, rfl⟩

/-- Helper: dispatch counts add over event concatenation. -/
theorem dispCount_append (l1 l2 : List Event) (tid aid : Nat) :
    dispCount (l1 ++ l2) tid aid = dispCount l1 tid aid + dispCount l2 tid aid :=
  List.countP_append _ _ _

/-- Helper: the two events of one dispatch-and-mark count one dispatch for
their own pair and none for any other. -/
theorem dispCount_two (t a : Nat) (o : SendOutcome) (tid aid : Nat) :
    dispCount [.dispatched t a o, .marked t a] tid aid =
      if t == tid && a == aid then 1 else 0 := by
  simp [dispCount, List.countP_cons, List.countP_nil]

/-- Helper: an invocation that dispatches nothing and only reads the
ledger satisfies the step contract. -/
theorem stepOk_inert {db db2 : DB} (hu : db2.users = db.users)
    (hs : db2.sent = db.sent) : stepOk db db2 [] := by
  refine ⟨⟨hu, [], by rw [hs, List.append_nil]⟩, fun tid aid => ?_⟩
  refine ⟨Nat.zero_le 1, fun _ => rfl, fun h => ?_⟩
  simp [dispCount, List.countP_nil] at h

/-- Helper: the step contract is reflexive on an untouched store. -/
theorem stepOk_refl (db : DB) : stepOk db db [] :=
  stepOk_inert rfl rfl

/-- Helper: the step contract composes sequentially. -/
theorem stepOk_trans {db db2 db3 : DB} {evs1 evs2 : List Event}
    (h1 : stepOk db db2 evs1) (h2 : stepOk db2 db3 evs2) :
    stepOk db db3 (evs1 ++ evs2) := by
  obtain ⟨hs1, hc1⟩ := h1
  obtain ⟨hs2, hc2⟩ := h2
  refine ⟨sentExt_trans hs1 hs2, fun tid aid => ?_⟩
  obtain ⟨hb1, hz1, hm1⟩ := hc1 tid aid
  obtain ⟨hb2, hz2, hm2⟩ := hc2 tid aid
  rw [dispCount_append]
  refine ⟨?_, ?_, ?_⟩
  · rcases Nat.eq_zero_or_pos (dispCount evs1 tid aid) with h0 | hpos
    · rw [h0]; simpa using hb2
    · have := hz2 (hm1 hpos)
      omega
  · intro hw
    rw [hz1 hw, hz2 (was_sent_mono tid aid hs1 hw)]
  · intro hge
    rcases Nat.eq_zero_or_pos (dispCount evs2 tid aid) with h0 | hpos
    · have hpos1 : 1 ≤ dispCount evs1 tid aid := by omega
      exact was_sent_mono tid aid hs2 (hm1 hpos1)
    · exact hm2 hpos

/-- Helper: one guarded dispatch-and-mark satisfies the step contract. -/
theorem stepOk_dispatch {db db2 : DB} {evs1 : List Event} (t a : Nat)
    (hsent : sentExt db db2)
    (hcnt : ∀ tid aid, dispCount evs1 tid aid =
      if t == tid && a == aid then 1 else 0)
    (hG : was_article_sent_to_user db t a = false)
    (hM : was_article_sent_to_user db2 t a = true) :
    stepOk db db2 evs1 := by
  refine ⟨hsent, fun tid aid => ?_⟩
  rw [hcnt tid aid]
  by_cases hb : (t == tid && a == aid) = true
  · rw [Bool.and_eq_true] at hb
    obtain ⟨ht, ha⟩ := hb
    have ht2 := beq_iff_eq.mp ht
    have ha2 := beq_iff_eq.mp ha
    subst ht2
    subst ha2
    rw [if_pos (by simp)]
    refine ⟨le_refl 1, fun hw => ?_, fun _ => hM⟩
    rw [hw] at hG
    exact absurd hG (by decide)
  · rw [if_neg hb]
    exact ⟨Nat.zero_le 1, fun _ => rfl, fun h => absurd h (by omega)⟩

/-- Helper: one subscriber iteration of the notify loop upholds the ledger
contract and does not touch article rows. -/
theorem notifyUser_ok (env : Env) (article : Article) (journal : Journal)
    (db : DB) (u : User)
    (hu : (findUserByTid db u.telegram_id).isSome = true) :
    stepOk db (notifyUser env article journal db u).1
      (notifyUser env article journal db u).2 ∧
    (notifyUser env article journal db u).1.articles = db.articles ∧
    (notifyUser env article journal db u).1.nextArticleId = db.nextArticleId := by
  obtain ⟨u0, hu0⟩ := Option.isSome_iff_exists.mp hu
  unfold notifyUser
  split
  · exact ⟨stepOk_refl db, rfl, rfl⟩
  · rename_i hGn
    have hG : was_article_sent_to_user db u.telegram_id article.id = false := by
      rwa [Bool.not_eq_true] at hGn
    split
    · exact ⟨stepOk_refl db, rfl, rfl⟩
    · rename_i tailored htail
      split
      · rename_i db2 hmk
        obtain ⟨ha2, hn2⟩ := mark_rows _ _ _ hmk
        exact ⟨stepOk_dispatch u.telegram_id article.id
          (mark_sentExt _ _ _ hmk) (fun tid aid => dispCount_two _ _ _ _ _) hG
          (was_sent_after_mark _ _ _ hmk), ha2, hn2⟩
      · rename_i e hmk
        rw [mark_ok_of_found db u.telegram_id article.id (some tailored) u0 hu0] at hmk
        cases hmk

/-- Helper: the whole subscriber loop upholds the ledger contract and does
not touch article rows, for any subscriber list resolvable in the store. -/
theorem notifyLoop_ok (env : Env) (article : Article) (journal : Journal) :
    ∀ (L : List User) (db : DB),
      (∀ u ∈ L, (findUserByTid db u.telegram_id).isSome = true) →
      stepOk db (notifyLoop env article journal L db).1
        (notifyLoop env article journal L db).2 ∧
      (notifyLoop env article journal L db).1.articles = db.articles ∧
      (notifyLoop env article journal L db).1.nextArticleId = db.nextArticleId := by
  intro L
  induction L with
  | nil => intro db _; exact ⟨stepOk_refl db, rfl, rfl⟩
  | cons u rest ih =>
      intro db h
      have hu := h u (List.mem_cons_self u rest)
      obtain ⟨h1, ha1, hn1⟩ := notifyUser_ok env article journal db u hu
      simp only [notifyLoop]
      rcases hnu : notifyUser env article journal db u with ⟨db2, evs1⟩
      rw [hnu] at h1 ha1 hn1
      have husers : db2.users = db.users := h1.1.1
      have hrest : ∀ v ∈ rest, (findUserByTid db2 v.telegram_id).isSome = true := by
        intro v hv
        have hold := h v (List.mem_cons_of_mem u hv)
        unfold findUserByTid at hold ⊢
        rw [husers]
        exact hold
      obtain ⟨h2, ha2, hn2⟩ := ih db2 hrest
      rcases hloop : notifyLoop env article journal rest db2 with ⟨db3, evs2⟩
      rw [hloop] at h2 ha2 hn2
      exact ⟨stepOk_trans h1 h2, ha2.trans ha1, hn2.trans hn1⟩

/-- Helper: the candidate loop of a scheduled check can never mutate the
store or dispatch anything — every genuinely new candidate hits the
TypeError from the unexpected volume and issue keyword arguments before
any insert, and every stored candidate is skipped. -/
theorem checkFeedLoop_inert (env : Env) (j : Journal) :
    ∀ (ps : List ParsedArticle) (db : DB),
      (checkFeedLoop env j ps db).db = db ∧
      (checkFeedLoop env j ps db).events = [] := by
  intro ps
  induction ps with
  | nil => intro db; exact ⟨rfl, rfl⟩
  | cons p rest ih =>
      intro db
      unfold checkFeedLoop
      by_cases hex : article_exists db p.link = true
      · rw [if_pos hex]
        exact ih db
      · rw [if_neg hex]
        rw [if_pos (by decide :
          (!(unexpectedKwargs createArticleParams checkFeedCreateKwargs).isEmpty) = true)]
        exact ⟨rfl, rfl⟩

/-- Helper: one journal check never dispatches and only restamps the
journal table. -/
theorem check_journal_feed_inert (env : Env) (j : Journal) (db : DB) :
    (check_journal_feed env j db).events = [] ∧
    (check_journal_feed env j db).db.users = db.users ∧
    (check_journal_feed env j db).db.sent = db.sent ∧
    (check_journal_feed env j db).db.articles = db.articles ∧
    (check_journal_feed env j db).db.nextArticleId = db.nextArticleId := by
  obtain ⟨hdb, hev⟩ := checkFeedLoop_inert env j (parse_from_url (env.fetch j)) db
  have hres : (check_journal_feed env j db).events = [] ∧
      ((check_journal_feed env j db).db = db ∨
       (check_journal_feed env j db).db = update_journal_last_checked db j.id) := by
    unfold check_journal_feed
    cases herr : (checkFeedLoop env j (parse_from_url (env.fetch j)) db).err with
    | some e => simp only [herr]; exact ⟨hev, Or.inl hdb⟩
    | none => simp only [herr]; exact ⟨hev, Or.inr (by rw [hdb])⟩
  rcases hres with ⟨hev2, hdb2 | hdb2⟩ <;> rw [hev2, hdb2] <;>
    exact ⟨rfl, rfl, rfl, rfl, rfl⟩

/-- Helper: a whole scheduled pass never dispatches and leaves users,
delivery records and article rows untouched. -/
theorem checkAllLoop_inert (env : Env) :
    ∀ (js : List Journal) (db : DB),
      (checkAllLoop env js db).events = [] ∧
      (checkAllLoop env js db).db.users = db.users ∧
      (checkAllLoop env js db).db.sent = db.sent ∧
      (checkAllLoop env js db).db.articles = db.articles ∧
      (checkAllLoop env js db).db.nextArticleId = db.nextArticleId := by
  intro js
  induction js with
  | nil => intro db; exact ⟨rfl, rfl, rfl, rfl, rfl⟩
  | cons j rest ih =>
      intro db
      obtain ⟨hev, hu, hs, ha, hn⟩ := check_journal_feed_inert env j db
      obtain ⟨hev2, hu2, hs2, ha2, hn2⟩ := ih (check_journal_feed env j db).db
      unfold checkAllLoop
      cases herr : (check_journal_feed env j db).err with
      | some e =>
          simp only [herr]
          exact ⟨by rw [hev, hev2]; rfl, by rw [hu2, hu], by rw [hs2, hs],
            by rw [ha2, ha], by rw [hn2, hn]⟩
      | none =>
          simp only [herr]
          exact ⟨by rw [hev, hev2]; rfl, by rw [hu2, hu], by rw [hs2, hs],
            by rw [ha2, ha], by rw [hn2, hn]⟩

/-- Helper: the backlog resolver only returns articles whose delivery
guard is off. -/
theorem get_unsent_not_sent (db : DB) (tid : Nat) (u : User)
    (hu : findUserByTid db tid = some u) :
    ∀ a ∈ get_unsent_articles_for_user db tid,
      was_article_sent_to_user db tid a.id = false := by
  intro a ha
  rw [get_unsent_eq db tid u hu] at ha
  have hmem : a ∈ userUnsent db u :=
    (sortByFetchedDesc_perm _).mem_iff.mp ((List.take_sublist 20 _).subset ha)
  have hpred := (List.mem_filter.mp hmem).2
  rw [Bool.and_eq_true] at hpred
  have hno : (db.sent.any fun s =>
      s.user_id == u.id && s.article_id == a.id) = false := by
    have := hpred.2
    rwa [Bool.not_eq_true'] at this
  unfold was_article_sent_to_user
  rw [hu]
  exact hno

/-- Helper: with distinct article primary keys, the backlog carries
distinct article ids. -/
theorem get_unsent_nodup (db : DB) (tid : Nat)
    (hinv : (db.articles.map (fun a => a.id)).Nodup) :
    ((get_unsent_articles_for_user db tid).map (fun a => a.id)).Nodup := by
  cases hu : findUserByTid db tid with
  | none =>
      rw [show get_unsent_articles_for_user db tid = [] by
        unfold get_unsent_articles_for_user; rw [hu]]
      exact List.nodup_nil
  | some u =>
      rw [get_unsent_eq db tid u hu]
      have h1 : ((userUnsent db u).map (fun a => a.id)).Nodup :=
        List.Nodup.sublist ((List.filter_sublist _).map _) hinv
      have h2 : ((sortByFetchedDesc (userUnsent db u)).map (fun a => a.id)).Nodup :=
        ((sortByFetchedDesc_perm (userUnsent db u)).map _).symm.nodup h1
      rw [List.map_take]
      exact List.Nodup.sublist (List.take_sublist _ _) h2


/-- Helper: one article iteration of the backlog loop upholds the ledger
contract, does not touch article rows, and leaves every other article's
guard unchanged. -/
theorem latestBody_ok (env : Env) (user : User) (article : Article) (db : DB)
    (hfind : (findUserByTid db user.telegram_id).isSome = true)
    (hG : was_article_sent_to_user db user.telegram_id article.id = false) :
    stepOk db (latestBody env user article db).1
      (latestBody env user article db).2 ∧
    (latestBody env user article db).1.articles = db.articles ∧
    (latestBody env user article db).1.nextArticleId = db.nextArticleId ∧
    (∀ aid2, aid2 ≠ article.id →
      was_article_sent_to_user (latestBody env user article db).1
          user.telegram_id aid2 =
        was_article_sent_to_user db user.telegram_id aid2) := by
  obtain ⟨u0, hu0⟩ := Option.isSome_iff_exists.mp hfind
  unfold latestBody
  split
  · exact ⟨stepOk_refl db, rfl, rfl, fun _ _ => rfl⟩
  · rename_i tailored htail
    split
    · rename_i db2 hmk
      obtain ⟨ha2, hn2⟩ := mark_rows _ _ _ hmk
      exact ⟨stepOk_dispatch user.telegram_id article.id
        (mark_sentExt _ _ _ hmk) (fun tid aid => dispCount_two _ _ _ _ _) hG
        (was_sent_after_mark _ _ _ hmk), ha2, hn2,
        fun aid2 hne => mark_other_aid _ _ _ hmk user.telegram_id aid2 hne⟩
    · rename_i e hmk
      rw [mark_ok_of_found db user.telegram_id article.id (some tailored) u0 hu0] at hmk
      cases hmk

/-- Helper: the backlog delivery loop upholds the ledger contract whenever
its article list is unsent, id-distinct, and its user resolvable. -/
theorem latestLoop_ok (env : Env) (user : User) :
    ∀ (A : List Article) (db : DB),
      (findUserByTid db user.telegram_id).isSome = true →
      (∀ a ∈ A, was_article_sent_to_user db user.telegram_id a.id = false) →
      (A.map (fun a => a.id)).Nodup →
      stepOk db (latestLoop env user A db).1 (latestLoop env user A db).2 ∧
      (latestLoop env user A db).1.articles = db.articles ∧
      (latestLoop env user A db).1.nextArticleId = db.nextArticleId := by
  intro A
  induction A with
  | nil => intro db _ _ _; exact ⟨stepOk_refl db, rfl, rfl⟩
  | cons a rest ih =>
      intro db hfind hunsent hnodup
      rw [List.map_cons, List.nodup_cons] at hnodup
      obtain ⟨hnotin, hnodup2⟩ := hnodup
      obtain ⟨h1, ha1, hn1, hother⟩ := latestBody_ok env user a db hfind
        (hunsent a (List.mem_cons_self a rest))
      simp only [latestLoop]
      rcases hb : latestBody env user a db with ⟨db2, evs1⟩
      rw [hb] at h1 ha1 hn1 hother
      have husers : db2.users = db.users := h1.1.1
      have hfind2 : (findUserByTid db2 user.telegram_id).isSome = true := by
        unfold findUserByTid at hfind ⊢
        rw [husers]
        exact hfind
      have hunsent2 : ∀ b ∈ rest,
          was_article_sent_to_user db2 user.telegram_id b.id = false := by
        intro b hbm
        have hne : b.id ≠ a.id := by
          intro hbe
          exact hnotin (hbe ▸ List.mem_map_of_mem (fun x => x.id) hbm)
        rw [hother b.id hne]
        exact hunsent b (List.mem_cons_of_mem a hbm)
      obtain ⟨h2, ha2, hn2⟩ := ih db2 hfind2 hunsent2 hnodup2
      rcases hloop : latestLoop env user rest db2 with ⟨db3, evs2⟩
      rw [hloop] at h2 ha2 hn2
      exact ⟨stepOk_trans h1 h2, ha2.trans ha1, hn2.trans hn1⟩

/-- Helper: every pipeline invocation — a scheduled pass, a notify call,
an on-demand backlog fetch — upholds the ledger contract and preserves the
article table invariants. -/
theorem runStep_ok (db : DB) (s : Step) (hinv : dbInv db) :
    stepOk db (runStep db s).1 (runStep db s).2 ∧
    (runStep db s).1.articles = db.articles ∧
    (runStep db s).1.nextArticleId = db.nextArticleId := by
  cases s with
  | feedCheck env =>
      obtain ⟨hev, hu, hs, ha, hn⟩ := checkAllLoop_inert env (get_all_journals db) db
      refine ⟨?_, ha, hn⟩
      show stepOk db (checkAllLoop env (get_all_journals db) db).db
        (checkAllLoop env (get_all_journals db) db).events
      rw [hev]
      exact stepOk_inert hu hs
  | notify env article journal =>
      have hsub : ∀ u ∈ get_users_subscribed_to_journal db journal.id,
          (findUserByTid db u.telegram_id).isSome = true := by
        intro u hu
        have hmem : u ∈ db.users := (List.mem_filter.mp hu).1
        exact List.find?_isSome.mpr ⟨u, hmem, by simp⟩
      exact notifyLoop_ok env article journal _ db hsub
  | backlog env tid =>
      show stepOk db (latest_command env db tid).1 (latest_command env db tid).2 ∧
        (latest_command env db tid).1.articles = db.articles ∧
        (latest_command env db tid).1.nextArticleId = db.nextArticleId
      unfold latest_command
      split
      · exact ⟨stepOk_refl db, rfl, rfl⟩
      · rename_i user hf
        split
        · exact ⟨stepOk_refl db, rfl, rfl⟩
        · split
          · exact ⟨stepOk_refl db, rfl, rfl⟩
          · have hf2 : db.users.find? (fun u => u.telegram_id == tid) = some user := hf
            have hp := List.find?_some hf2
            have htid : user.telegram_id = tid := beq_iff_eq.mp hp
            have hfu : findUserByTid db user.telegram_id = some user :=
              htid.symm ▸ hf
            have hfind : (findUserByTid db user.telegram_id).isSome = true := by
              rw [hfu]; rfl
            have hunsent : ∀ a ∈
                (get_unsent_articles_for_user db user.telegram_id).take 5,
                was_article_sent_to_user db user.telegram_id a.id = false := by
              intro a ha
              exact get_unsent_not_sent db user.telegram_id user hfu a
                ((List.take_sublist 5 _).subset ha)
            have hnodup :
                (((get_unsent_articles_for_user db user.telegram_id).take 5).map
                  (fun a => a.id)).Nodup := by
              rw [List.map_take]
              exact List.Nodup.sublist (List.take_sublist _ _)
                (get_unsent_nodup db user.telegram_id hinv.1)
            exact latestLoop_ok env user _ db hfind hunsent hnodup

/-- Helper: any interleaving of pipeline invocations upholds the ledger
contract end to end. -/
theorem runTrace_ok :
    ∀ (steps : List Step) (db : DB), dbInv db →
      stepOk db (runTrace db steps).1 (runTrace db steps).2 := by
  intro steps
  induction steps with
  | nil => intro db _; exact stepOk_refl db
  | cons s rest ih =>
      intro db hinv
      obtain ⟨h1, ha1, hn1⟩ := runStep_ok db s hinv
      have hinv2 : dbInv (runStep db s).1 := by
        obtain ⟨hnd, hbd⟩ := hinv
        constructor
        · rw [ha1]; exact hnd
        · rw [ha1, hn1]; exact hbd
      have h2 := ih (runStep db s).1 hinv2
      simp only [runTrace]
      rcases hstep : runStep db s with ⟨db2, evs1⟩
      rw [hstep] at h1 h2
      rcases htr : runTrace db2 rest with ⟨db3, evs2⟩
      rw [htr] at h2
      exact stepOk_trans h1 h2

/-- C1: at-most-once delivery per (user, article) pair.  Every subscriber
iteration of the scheduled notify path checks was_article_sent_to_user
before tailoring and dispatching, and every dispatch is immediately
marked; hence over any interleaving of scheduler passes, notify
invocations and on-demand backlog fetches, a pair is dispatched at most
once, and a pair already holding a delivery record is never dispatched at
all. -/
theorem C1_at_most_once_delivery :
    ∀ (db : DB) (steps : List Step) (tid aid : Nat),
      dbInv db →
      dispCount (runTrace db steps).2 tid aid ≤ 1 ∧
      (was_article_sent_to_user db tid aid = true →
        dispCount (runTrace db steps).2 tid aid = 0) := by
  intro db steps tid aid hinv
  obtain ⟨-, hc⟩ := runTrace_ok steps db hinv
  obtain ⟨hb, hz, -⟩ := hc tid aid
  exact ⟨hb, hz⟩

/-- C1 witness: two notify passes over the same article and subscriber
dispatch exactly once. -/
theorem C1_witness :
    dispCount (runTrace dbW1 [Step.notify benignEnv aC2 jC2,
      Step.notify benignEnv aC2 jC2]).2 100 5 ≤ 1 ∧
    dispCount (runTrace dbW1 [Step.notify benignEnv aC2 jC2,
      Step.notify benignEnv aC2 jC2]).2 100 5 = 1 :=
  ⟨(C1_at_most_once_delivery dbW1 _ 100 5 ⟨by decide, by decide⟩).1, by decide⟩
